import Mathlib

/-!
Shallow embedding of the dxf-analyzer-pro scoring, aggregation and
error-handling logic, together with theorems checking the natural-language
specification against it.

Modelling conventions used throughout this file:
* Python floats are modelled as exact rationals (`ℚ`) wherever the source
  only performs field operations and comparisons; genuinely irrational
  operations of the source (`math.sqrt`, `math.pi`) are modelled over `ℝ`.
* Python dictionaries keyed by strings are modelled as association lists
  or as records whose fields carry the values stored under each key;
  `dict.get(k, default)` becomes an association-list lookup with default.
* Values that may be absent (`None`) or of the wrong runtime type in the
  source are modelled as `Option`.
* Fallible code (exceptions) is modelled in the `Except String` monad.
-/

namespace DxfAnalyzer

/-- Counter / dict-increment update: `d[t] = d.get(t, 0) + 1` on an
insertion-ordered dictionary represented as an association list. -/
def bumpKey {α : Type} [DecidableEq α] : List (α × ℕ) → α → List (α × ℕ)
  | [], t => [(t, 1)]
  | (k, v) :: rest, t =>
    if k = t then (k, v + 1) :: rest else (k, v) :: bumpKey rest t

/-- Lookup of a count in an association list, defaulting to `0`
(`d.get(t, 0)`). -/
def cnt {α : Type} [DecidableEq α] : List (α × ℕ) → α → ℕ
  | [], _ => 0
  | (k, v) :: rest, t => if k = t then v else cnt rest t

/-- Sum of the values of a counter dictionary (`sum(d.values())`). -/
def sumValues {α : Type} (l : List (α × ℕ)) : ℕ :=
  (l.map Prod.snd).sum

/-- `round` at Python semantics: round half to even, to `d` decimal digits,
over any ordered field with a floor. -/
def pyRound {K : Type} [LinearOrderedField K] [FloorRing K] (x : K) (d : ℕ) : K :=
  let y : K := x * (10 : K) ^ d
  let n : ℤ := ⌊y⌋
  let z : ℤ :=
    if y - n < 1 / 2 then n
    else if 1 / 2 < y - n then n + 1
    else if Even n then n else n + 1
  (z : K) / (10 : K) ^ d

/-- `round(x, 3)` used by the duplicate-circle detector. -/
def round3 (x : ℚ) : ℚ := pyRound x 3

/-- ASCII lowering of a character, the fragment of `str.lower` that can
affect matches against the all-lowercase ASCII and Korean keywords used by
the source. -/
def asciiLower (c : Char) : Char :=
  if 'A' ≤ c && c ≤ 'Z' then Char.ofNat (c.toNat + 32) else c

/-- Lowercased copy of a string (`s.lower()` restricted to ASCII letters). -/
def lowerStr (s : String) : String := String.mk (s.data.map asciiLower)

/-- Substring test on character lists (`pat in big` for Python strings). -/
def containsList {α : Type} [DecidableEq α] : List α → List α → Bool
  | big, pat =>
    match big with
    | [] => pat.isEmpty
    | _ :: rest => pat.isPrefixOf big || containsList rest pat

/-- Case-insensitive substring search of any of the given literal
alternatives, the semantics of `re.search('a|b|c', name, re.IGNORECASE)`
for the literal-alternation patterns used by the source. -/
def regexAnyAlt (name : String) (alts : List String) : Bool :=
  alts.any fun a => containsList (lowerStr name).data a.data

/-! ## Data model of the dictionaries produced by `DXFAnalyzer.analyze_dxf_file`
and consumed by `DXFAdvancedAnalyzer` (src/dxf_analyzer.py,
src/dxf_advanced_analyzer.py). Fields that may be absent or non-numeric at
runtime are `Option`-valued. -/

structure LayerInfo where
  name : String
  color : ℤ
  linetype : String
  deriving DecidableEq

structure DimensionInfo where
  layer : String
  measurement : Option ℚ
  text : String
  style : String
  deriving DecidableEq

structure CircleInfo where
  layer : String
  radius : Option ℚ
  diameter : Option ℚ
  center : Option (List ℚ)
  deriving DecidableEq

structure ArcInfo where
  layer : String
  radius : ℚ
  center : ℚ × ℚ
  deriving DecidableEq

structure TextInfo where
  type : String
  layer : String
  text : String
  height : Option ℚ
  deriving DecidableEq

/-- Line record collected by the analyzer. The source additionally stores a
derived display field `length = math.sqrt(dx**2 + dy**2)`; that irrational
value is read by no code covered by the claims and is not represented. -/
structure LineInfo where
  layer : String
  start : ℚ × ℚ
  stop : ℚ × ℚ
  deriving DecidableEq

structure PolylineInfo where
  layer : String
  points : List (ℚ × ℚ)
  closed : Bool
  vertex_count : ℕ
  deriving DecidableEq

structure BlockInfo where
  layer : String
  name : String
  position : ℚ × ℚ
  scale : ℚ × ℚ
  rotation : ℚ
  deriving DecidableEq

structure HatchInfo where
  layer : String
  pattern : String
  solid : Bool
  scale : ℚ
  deriving DecidableEq

structure DrawingBounds where
  min_x : Option ℚ
  min_y : Option ℚ
  max_x : Option ℚ
  max_y : Option ℚ
  deriving DecidableEq

structure DrawingSize where
  width : ℚ
  height : ℚ
  area : ℚ
  bounds : DrawingBounds
  deriving DecidableEq

structure FileInfo where
  filename : String
  size : ℕ
  modified_time : String
  deriving DecidableEq

structure SummaryInfo where
  total_entities : ℕ
  layer_count : ℕ
  dimension_count : ℕ
  circle_count : ℕ
  arc_count : ℕ
  text_count : ℕ
  line_count : ℕ
  polyline_count : ℕ
  block_count : ℕ
  hatch_count : ℕ
  entity_breakdown : List (String × ℕ)
  drawing_size : Option DrawingSize
  deriving DecidableEq

/-- The `analyzer_data` dictionary. Keys read with `.get(k, default)` in
the source are plain fields here; an absent key corresponds to the default
value (empty list, zero counts). -/
structure AnalyzerData where
  file_info : FileInfo
  summary_info : SummaryInfo
  layers : List LayerInfo
  dimensions : List DimensionInfo
  circles : List CircleInfo
  arcs : List ArcInfo
  texts : List TextInfo
  lines : List LineInfo
  polylines : List PolylineInfo
  blocks : List BlockInfo
  hatches : List HatchInfo
  entities_by_layer : List (String × List (String × ℕ))
  entity_breakdown : List (String × ℕ)
  drawing_bounds : DrawingBounds
  deriving DecidableEq

/-- Quality issue entry. The source also stores a display `message` string
interpolating values already present in the inputs; no claim reads it, so
only the discriminating fields are represented. -/
structure QIssue where
  severity : String
  category : String
  deriving DecidableEq

/-! ## DXFAdvancedAnalyzer.calculate_drawing_complexity -/

structure ComplexityMetrics where
  overall_complexity : ℚ
  entity_complexity : ℚ
  layer_complexity : ℚ
  type_complexity : ℚ
  complexity_level : String
  deriving DecidableEq

/-- Translation of `_get_complexity_level`. -/
def getComplexityLevel (complexity : ℚ) : String :=
  if complexity < 0.2 then "매우 단순"
  else if complexity < 0.4 then "단순"
  else if complexity < 0.6 then "보통"
  else if complexity < 0.8 then "복잡"
  else "매우 복잡"

/-- Translation of `DXFAdvancedAnalyzer.calculate_drawing_complexity`. -/
def calculate_drawing_complexity (d : AnalyzerData) : ComplexityMetrics :=
  let total_entities : ℚ := d.summary_info.total_entities
  let layer_count : ℚ := d.summary_info.layer_count
  let entity_types : ℚ := d.entity_breakdown.length
  let entity_complexity := min (total_entities / 10000) 1
  let layer_complexity := min (layer_count / 50) 1
  let type_complexity := min (entity_types / 20) 1
  let overall_complexity :=
    entity_complexity * 0.5 + layer_complexity * 0.3 + type_complexity * 0.2
  { overall_complexity := overall_complexity
    entity_complexity := entity_complexity
    layer_complexity := layer_complexity
    type_complexity := type_complexity
    complexity_level := getComplexityLevel overall_complexity }

/-! ## DXFAdvancedAnalyzer.analyze_drawing_quality and its evaluators -/

/-- The `meaningful_patterns` list of `_evaluate_layer_organization`; each
entry lists the literal alternatives of one regex. -/
def meaningfulPatterns : List (List String) :=
  [["치수", "dimension", "dim"],
   ["중심선", "center", "cen"],
   ["숨김선", "hidden", "hid"],
   ["텍스트", "text", "txt"],
   ["해치", "hatch", "hat"]]

/-- Translation of `_evaluate_layer_organization`, returning the score and
the issue list. -/
def evalLayerOrganization (layers : List LayerInfo) : ℚ × List QIssue :=
  if layers.isEmpty then
    (0, [{ severity := "error", category := "레이어" }])
  else
    let layer_names := layers.map LayerInfo.name
    let res1 : ℚ × List QIssue :=
      if layer_names = ["0"] then
        (100 - 30, [{ severity := "warning", category := "레이어" }])
      else (100, [])
    let meaningful_count :=
      layer_names.countP fun name => meaningfulPatterns.any (regexAnyAlt name)
    if (meaningful_count : ℚ) < (layer_names.length : ℚ) * 0.5 then
      (res1.1 - 20, res1.2 ++ [{ severity := "info", category := "레이어" }])
    else res1

/-- The filtered positive numeric measurements of a dimension list
(`measurement is not None and isinstance(measurement, (int, float)) and
measurement > 0`). -/
def posMeasurements (dims : List DimensionInfo) : List ℚ :=
  dims.filterMap fun d => d.measurement.bind fun m => if 0 < m then some m else none

/-- Translation of `_evaluate_dimensions`. The source compares
`abs(m - mean) > 3 * stdev` with the sample standard deviation; here the
equivalent comparison of squares `(m - mean)^2 > 9 * variance` is used,
which agrees because both sides of the original comparison are
nonnegative. -/
def evalDimensions (dims : List DimensionInfo) : ℚ × List QIssue :=
  let measurements := posMeasurements dims
  if 1 < measurements.length then
    let n : ℚ := measurements.length
    let mean_val := measurements.sum / n
    let var_val := (measurements.map fun m => (m - mean_val) ^ 2).sum / (n - 1)
    let outliers :=
      if 0 < var_val then
        measurements.filter fun m => 9 * var_val < (m - mean_val) ^ 2
      else []
    if outliers.isEmpty then (100, [])
    else
      (100 - min 20 ((outliers.length : ℚ) * 5),
       [{ severity := "warning", category := "치수" }])
  else (100, [])

/-- Translation of `_evaluate_entity_distribution`. A breakdown whose
counts are all zero would raise ZeroDivisionError in the source; the
analyzer never produces one, and the rational division convention used
here only differs on that degenerate input. -/
def evalEntityDistribution (entity_breakdown : List (String × ℕ)) : ℚ × List QIssue :=
  if entity_breakdown.isEmpty then
    (0, [{ severity := "error", category := "객체" }])
  else
    let total : ℚ := sumValues entity_breakdown
    let overs := entity_breakdown.filter fun p => (0.7 : ℚ) < (p.2 : ℚ) / total
    (100 - 15 * (overs.length : ℚ),
     overs.map fun _ => { severity := "info", category := "객체 분포" })

/-- The filtered positive numeric text heights used by
`_evaluate_text_consistency` and `_detect_scale_anomalies`. -/
def validHeights (texts : List TextInfo) : List ℚ :=
  texts.filterMap fun t => t.height.bind fun h => if 0 < h then some h else none

/-- Translation of `_evaluate_text_consistency`; `len(set(heights))` is the
number of distinct heights. -/
def evalTextConsistency (texts : List TextInfo) : ℚ × List QIssue :=
  if texts.isEmpty then (100, [])
  else
    let heights := validHeights texts
    if heights.isEmpty then (100, [])
    else if 5 < heights.dedup.length then
      (100 - 10, [{ severity := "info", category := "텍스트" }])
    else (100, [])

/-- Translation of `_get_quality_grade`. -/
def getQualityGrade (score : ℚ) : String :=
  if 90 ≤ score then "A (우수)"
  else if 80 ≤ score then "B (양호)"
  else if 70 ≤ score then "C (보통)"
  else if 60 ≤ score then "D (미흡)"
  else "F (개선필요)"

structure QualityMetrics where
  overall_score : ℚ
  layer_score : ℚ
  dimension_score : ℚ
  distribution_score : ℚ
  text_score : ℚ
  issues : List QIssue
  grade : String
  deriving DecidableEq

/-- Translation of `DXFAdvancedAnalyzer.analyze_drawing_quality`. The
`overall_complexity is not None` guard of the source is vacuous since
`calculate_drawing_complexity` always stores a number. -/
def analyze_drawing_quality (d : AnalyzerData) : QualityMetrics :=
  let layerRes := evalLayerOrganization d.layers
  let dimRes := evalDimensions d.dimensions
  let distRes := evalEntityDistribution d.entity_breakdown
  let textRes := evalTextConsistency d.texts
  let complexity := calculate_drawing_complexity d
  let q1 : ℚ := 100 - (100 - layerRes.1) * 0.2
  let q2 := q1 - (100 - dimRes.1) * 0.3
  let q3 := q2 - (100 - distRes.1) * 0.1
  let q4 := q3 - (100 - textRes.1) * 0.1
  let q5 := if (0.8 : ℚ) < complexity.overall_complexity then q4 - 10 else q4
  let complexityIssues : List QIssue :=
    if (0.8 : ℚ) < complexity.overall_complexity then
      [{ severity := "warning", category := "복잡도" }]
    else []
  { overall_score := max 0 q5
    layer_score := layerRes.1
    dimension_score := dimRes.1
    distribution_score := distRes.1
    text_score := textRes.1
    issues := layerRes.2 ++ dimRes.2 ++ distRes.2 ++ textRes.2 ++ complexityIssues
    grade := getQualityGrade q5 }

end DxfAnalyzer

namespace DxfAnalyzer

def sampleData : AnalyzerData :=
  { file_info := ⟨"f", 0, "t"⟩
    summary_info := ⟨100, 5, 0, 0, 0, 0, 0, 0, 0, 0, [("LINE", 60), ("CIRCLE", 40)], none⟩
    layers := [⟨"0", 7, "CONTINUOUS"⟩]
    dimensions := []
    circles := []
    arcs := []
    texts := []
    lines := []
    polylines := []
    blocks := []
    hatches := []
    entities_by_layer := []
    entity_breakdown := [("LINE", 60), ("CIRCLE", 40)]
    drawing_bounds := ⟨none, none, none, none⟩ }

end DxfAnalyzer

namespace DxfAnalyzer

/-! ## DXFCNCAnalyzer (src/dxf_cnc_analyzer.py): machinability scoring.
The functions are generic in an ordered field `K` so that the same
translations serve both the exact-rational statements and the real-valued
analysis pipeline; the Python float tables instantiate at either. -/

structure ToolParams (K : Type) where
  cutting_speed : K
  feed_rate : K
  drilling_speed : K
  drilling_feed : K

structure MaterialParams (K : Type) where
  machinability_factor : K
  cost_factor : K

/-- Translation of `_init_tool_library`. -/
def initToolLibrary (K : Type) [LinearOrderedField K] : List (String × ToolParams K) :=
  [("aluminum", ⟨300, 0.15, 100, 0.1⟩),
   ("steel", ⟨150, 0.1, 50, 0.08⟩),
   ("stainless_steel", ⟨80, 0.08, 30, 0.06⟩),
   ("titanium", ⟨50, 0.05, 20, 0.04⟩)]

/-- Translation of `_init_material_params`. -/
def initMaterialParams (K : Type) [LinearOrderedField K] : List (String × MaterialParams K) :=
  [("aluminum", ⟨1.0, 1.0⟩),
   ("steel", ⟨1.5, 1.3⟩),
   ("stainless_steel", ⟨2.0, 1.6⟩),
   ("titanium", ⟨3.0, 2.5⟩)]

/-- The `complexity_weights` table set in `DXFCNCAnalyzer.__init__`. -/
def initComplexityWeights (K : Type) [LinearOrderedField K] : List (String × K) :=
  [("small_radius", 2.0),
   ("deep_pocket", 1.5),
   ("thin_wall", 1.8),
   ("tight_tolerance", 1.6),
   ("complex_contour", 1.4)]

/-- The instance attributes of a `DXFCNCAnalyzer` object; no method of the
class ever assigns to them after `__init__`. -/
structure CncState (K : Type) where
  tool_library : List (String × ToolParams K)
  material_params : List (String × MaterialParams K)
  complexity_weights : List (String × K)

/-- The state set up by `DXFCNCAnalyzer.__init__`. -/
def initCncState (K : Type) [LinearOrderedField K] : CncState K :=
  ⟨initToolLibrary K, initMaterialParams K, initComplexityWeights K⟩

structure CncHole (K : Type) where
  center : K × K × K
  radius : K
  diameter : K

structure CncContour (K : Type) where
  ctype : String
  points : List (K × K)
  area : K

/-- The geometry-analysis dictionary built by
`DXFCNCAnalyzer._analyze_geometry`. `min_radius` and `min_wall_thickness`
are initialised to `float('inf')` in the source, modelled by `WithTop`;
`bounding_box` is set to `None` and never updated. -/
structure CncGeometry (K : Type) where
  total_entities : ℕ
  contours : List (CncContour K)
  pockets : List Unit
  holes : List (CncHole K)
  min_radius : WithTop K
  max_depth : K
  min_wall_thickness : WithTop K
  total_cut_length : K
  bounding_box : Option Unit
  complexity_features : List String

/-- Translation of `_score_complexity`: subtract `weight * 5` for every
listed complexity feature present in the weights table, floored at 0. -/
def scoreComplexity {K : Type} [LinearOrderedField K]
    (st : CncState K) (geometry : CncGeometry K) : K :=
  let score := geometry.complexity_features.foldl
    (fun score feature =>
      match st.complexity_weights.lookup feature with
      | some w => score - w * 5
      | none => score)
    (100 : K)
  max 0 score

/-- Translation of `_score_tool_access`. -/
def scoreToolAccess {K : Type} [LinearOrderedField K] (geometry : CncGeometry K) : K :=
  let score : K :=
    if geometry.min_radius < ((1 : K) : WithTop K) then 100 - 30
    else if geometry.min_radius < ((3 : K) : WithTop K) then 100 - 15
    else 100
  max 0 score

/-- Translation of `_score_tolerance_feasibility`: constant 85.0. -/
def scoreToleranceFeasibility {K : Type} [LinearOrderedField K]
    (geometry : CncGeometry K) : K :=
  85.0

/-- Translation of `_score_surface_finish`: constant 90.0. -/
def scoreSurfaceFinish {K : Type} [LinearOrderedField K]
    (geometry : CncGeometry K) : K :=
  90.0

/-- Translation of `_score_material_removal`. -/
def scoreMaterialRemoval {K : Type} [LinearOrderedField K]
    (geometry : CncGeometry K) (material : String) : K :=
  if material = "titanium" ∨ material = "stainless_steel" then (100 : K) - 20
  else 100

structure MachinabilityScore (K : Type) where
  overall_score : K
  complexity_score : K
  tool_access_score : K
  tolerance_score : K
  surface_finish_score : K
  material_removal_score : K
  grade : String

/-- Translation of `DXFCNCAnalyzer._calculate_machinability_score`. -/
def calculate_machinability_score {K : Type} [LinearOrderedField K]
    (st : CncState K) (geometry : CncGeometry K) (material : String) :
    MachinabilityScore K :=
  let complexity_score := scoreComplexity st geometry
  let tool_access_score := scoreToolAccess geometry
  let tolerance_score := scoreToleranceFeasibility geometry
  let surface_finish_score := scoreSurfaceFinish geometry
  let material_removal_score := scoreMaterialRemoval geometry material
  let overall_score :=
    complexity_score * 0.25 + tool_access_score * 0.25 + tolerance_score * 0.20 +
      surface_finish_score * 0.15 + material_removal_score * 0.15
  let grade :=
    if 90 ≤ overall_score then "A"
    else if 80 ≤ overall_score then "B"
    else if 70 ≤ overall_score then "C"
    else if 60 ≤ overall_score then "D"
    else "F"
  { overall_score := overall_score
    complexity_score := complexity_score
    tool_access_score := tool_access_score
    tolerance_score := tolerance_score
    surface_finish_score := surface_finish_score
    material_removal_score := material_removal_score
    grade := grade }

/-! ## DXFCostEstimator (src/dxf_cost_estimator.py): cost dataclasses,
additional costs, quantity discount and cost breakdown, generic in the
numeric field for the same reason as above. -/

structure ToolRequired (K : Type) where
  ttype : String
  unit_cost : K
  life_parts : K
  quantity : K

structure MaterialCost (K : Type) where
  material_type : String
  raw_stock_size : K × K × K
  volume_used : K
  volume_waste : K
  unit_price : K
  total_cost : K

structure MachiningCost (K : Type) where
  setup_time : K
  cutting_time : K
  tool_change_time : K
  machine_rate : K
  labor_rate : K
  total_cost : K

structure ToolingCost (K : Type) where
  tools_required : List (ToolRequired K)
  tool_wear_cost : K
  consumables_cost : K
  total_cost : K

structure AdditionalCosts (K : Type) where
  quality_control : K
  overhead : K
  profit_margin : K
  total : K

/-- Translation of `DXFCostEstimator._calculate_additional_costs`; the
`total` entry is the sum of the three percentage components
(`sum(additional.values())`). -/
def calculate_additional_costs {K : Type} [LinearOrderedField K]
    (material : MaterialCost K) (machining : MachiningCost K)
    (tooling : ToolingCost K) : AdditionalCosts K :=
  let subtotal := material.total_cost + machining.total_cost + tooling.total_cost
  let quality_control := subtotal * 0.05
  let overhead := subtotal * 0.15
  let profit_margin := subtotal * 0.20
  { quality_control := quality_control
    overhead := overhead
    profit_margin := profit_margin
    total := quality_control + overhead + profit_margin }

/-- Translation of `DXFCostEstimator._apply_quantity_discount`. -/
def apply_quantity_discount {K : Type} [LinearOrderedField K] (qty : ℤ) : K :=
  if 1000 ≤ qty then 0.25
  else if 500 ≤ qty then 0.20
  else if 100 ≤ qty then 0.15
  else if 50 ≤ qty then 0.10
  else if 10 ≤ qty then 0.05
  else 0.0

structure BreakdownEntry (K : Type) where
  amount : K
  percentage : K

structure CostBreakdown (K : Type) where
  material : BreakdownEntry K
  machining : BreakdownEntry K
  tooling : BreakdownEntry K
  quality_control : BreakdownEntry K
  overhead : BreakdownEntry K
  profit : BreakdownEntry K

/-- Translation of `DXFCostEstimator._generate_cost_breakdown`. In the
source a zero combined total raises ZeroDivisionError before this
dictionary is built; the enclosing pipeline models that raise explicitly,
so this function is only reached with a nonzero total. -/
def generate_cost_breakdown {K : Type} [LinearOrderedField K]
    (material : MaterialCost K) (machining : MachiningCost K)
    (tooling : ToolingCost K) (additional : AdditionalCosts K) : CostBreakdown K :=
  let total := material.total_cost + machining.total_cost + tooling.total_cost +
    additional.total
  { material := ⟨material.total_cost, material.total_cost / total * 100⟩
    machining := ⟨machining.total_cost, machining.total_cost / total * 100⟩
    tooling := ⟨tooling.total_cost, tooling.total_cost / total * 100⟩
    quality_control := ⟨additional.quality_control, additional.quality_control / total * 100⟩
    overhead := ⟨additional.overhead, additional.overhead / total * 100⟩
    profit := ⟨additional.profit_margin, additional.profit_margin / total * 100⟩ }

/-- Concrete sample inputs used by witness theorems. -/
def sampleMaterialCost : MaterialCost ℚ :=
  { material_type := "aluminum 6061", raw_stock_size := (110, 110, 10)
    volume_used := 84.7, volume_waste := 36.3, unit_price := 8000, total_cost := 100 }

def sampleMachiningCost : MachiningCost ℚ :=
  { setup_time := 30, cutting_time := 12, tool_change_time := 6
    machine_rate := 50000, labor_rate := 35000, total_cost := 200 }

def sampleToolingCost : ToolingCost ℚ :=
  { tools_required := [⟨"End Mill 6mm", 50000, 500, 2⟩]
    tool_wear_cost := 200, consumables_cost := 10, total_cost := 50 }

end DxfAnalyzer

namespace DxfAnalyzer

/-! ## DXFAdvancedAnalyzer.detect_patterns and the anomaly detectors -/

/-- `collections.Counter(measurements)`: an insertion-ordered dictionary
from values to their multiplicities, built by repeated increment. -/
def counter (l : List ℚ) : List (ℚ × ℕ) := l.foldl bumpKey []

/-- `Counter.most_common(n)`: entries sorted by decreasing count with ties
kept in first-occurrence order (Python sorting is stable), truncated to
`n` entries. -/
def mostCommon (freq : List (ℚ × ℕ)) (n : ℕ) : List (ℚ × ℕ) :=
  (freq.mergeSort fun a b => decide (b.2 ≤ a.2)).take n

/-- Result dictionary of `_find_repeated_dimensions`. The early-return
branches of the source produce `{'found': False}` with no other keys;
that is modelled with empty lists. -/
structure RepeatedDimsResult where
  found : Bool
  repeated_values : List (ℚ × ℕ)
  most_common : List (ℚ × ℕ)
  deriving DecidableEq

/-- Translation of `_find_repeated_dimensions`. The `try` of the source
cannot fail on these operations, so the exception branch is dead. -/
def find_repeated_dimensions (d : AnalyzerData) : RepeatedDimsResult :=
  if d.dimensions.isEmpty then ⟨false, [], []⟩
  else
    let measurements := posMeasurements d.dimensions
    if measurements.isEmpty then ⟨false, [], []⟩
    else
      let freq := counter measurements
      let repeated := freq.filter fun p => 1 < p.2
      ⟨!repeated.isEmpty, repeated, mostCommon freq 5⟩

structure PatternFound where
  found : Bool
  deriving DecidableEq

/-- Translation of `_detect_grid_pattern`: unconditionally not found. -/
def detect_grid_pattern (d : AnalyzerData) : PatternFound := ⟨false⟩

/-- Translation of `_detect_symmetry`: unconditionally not found. -/
def detect_symmetry (d : AnalyzerData) : PatternFound := ⟨false⟩

structure Patterns where
  repeated_dimensions : RepeatedDimsResult
  grid_pattern : PatternFound
  symmetry : PatternFound
  deriving DecidableEq

/-- Translation of `DXFAdvancedAnalyzer.detect_patterns`. -/
def detect_patterns (d : AnalyzerData) : Patterns :=
  { repeated_dimensions := find_repeated_dimensions d
    grid_pattern := detect_grid_pattern d
    symmetry := detect_symmetry d }

/-- Anomaly entry of the duplicate detector; the display message
interpolates the circle center, carried here as a field. -/
structure Anomaly where
  type : String
  severity : String
  center : Option (List ℚ)
  deriving DecidableEq

/-- Rounded duplicate key of a circle: `(round(cx, 3), round(cy, 3),
round(r, 3))`, or `none` when the center is missing or shorter than two
coordinates or the radius is missing or non-numeric, in which case the
source skips the circle. -/
def circleKey (c : CircleInfo) : Option (ℚ × ℚ × ℚ) :=
  match c.center, c.radius with
  | some center, some radius =>
    if 2 ≤ center.length then
      some (round3 (center.getD 0 0), round3 (center.getD 1 0), round3 radius)
    else none
  | _, _ => none

/-- The loop of `_detect_duplicate_entities`: walk the circles carrying the
set of keys seen so far; a circle whose key was already seen emits an
anomaly, otherwise its key is recorded. -/
def dupScan : List CircleInfo → List (ℚ × ℚ × ℚ) → List Anomaly
  | [], _ => []
  | c :: rest, seen =>
    match circleKey c with
    | none => dupScan rest seen
    | some key =>
      if key ∈ seen then
        { type := "duplicate_circle", severity := "warning", center := c.center }
          :: dupScan rest seen
      else dupScan rest (key :: seen)

/-- Translation of `_detect_duplicate_entities`: the scan runs only when
the list holds more than one circle. -/
def detect_duplicate_entities (d : AnalyzerData) : List Anomaly :=
  if 1 < d.circles.length then dupScan d.circles [] else []

/-- Statement-side rendering of claim C7, following the words of the
specification: an anomaly is emitted for a circle exactly when some
earlier circle in the list has the same rounded key; `processed` carries
the earlier circles. To be compared with `detect_duplicate_entities`. -/
def dupSpec (processed : List CircleInfo) : List CircleInfo → List Anomaly
  | [] => []
  | c :: rest =>
    match circleKey c with
    | none => dupSpec (processed ++ [c]) rest
    | some key =>
      if key ∈ processed.filterMap circleKey then
        { type := "duplicate_circle", severity := "warning", center := c.center }
          :: dupSpec (processed ++ [c]) rest
      else dupSpec (processed ++ [c]) rest

end DxfAnalyzer

namespace DxfAnalyzer

/-! ## DXFAnalyzer.analyze_dxf_file (src/dxf_analyzer.py): the entity
iteration. An entity yielded by the library is modelled as a flat record
of the dynamic attributes the loop reads; each branch only reads the
attributes that exist on entities of its `dxftype`. The loop is a fold
over the iterated entities. -/

structure DxfEntity (K : Type) where
  dxftype : String
  layer : String
  measurement : Option K
  text : String
  dimstyle : String
  radius : K
  center : K × K × K
  height : K
  start : K × K × K
  stop : K × K × K
  start_angle : K
  end_angle : K
  points : List (K × K)
  closed : Bool
  is_closed : Bool
  name : String
  insert : K × K
  xscale : K
  yscale : K
  rotation : K
  pattern_name : String
  solid_fill : Bool
  pattern_scale : K

/-- Mutable analysis fields of a `DXFAnalyzer` during the entity loop. -/
structure AnalyzerState where
  layers : List LayerInfo
  dimensions : List DimensionInfo
  circles : List CircleInfo
  arcs : List ArcInfo
  texts : List TextInfo
  lines : List LineInfo
  polylines : List PolylineInfo
  blocks : List BlockInfo
  hatches : List HatchInfo
  entities_by_layer : List (String × List (String × ℕ))
  entity_counts : List (String × ℕ)
  bounds : DrawingBounds

/-- Translation of `_update_bounds`. -/
def updateBounds (b : DrawingBounds) (x y : ℚ) : DrawingBounds :=
  { min_x := match b.min_x with
      | none => some x
      | some v => if x < v then some x else some v
    max_x := match b.max_x with
      | none => some x
      | some v => if v < x then some x else some v
    min_y := match b.min_y with
      | none => some y
      | some v => if y < v then some y else some v
    max_y := match b.max_y with
      | none => some y
      | some v => if v < y then some y else some v }

/-- The per-layer entity classification step
(`entities_by_layer[layer][etype] += 1` with dict auto-creation). -/
def updateByLayer : List (String × List (String × ℕ)) → String → String →
    List (String × List (String × ℕ))
  | [], layer, etype => [(layer, bumpKey [] etype)]
  | (k, v) :: rest, layer, etype =>
    if k = layer then (k, bumpKey v etype) :: rest
    else (k, v) :: updateByLayer rest layer etype

/-- One iteration of the entity loop of `analyze_dxf_file`: count the
dxftype, collect the per-type detail record, and classify by layer. -/
def processEntity (st : AnalyzerState) (e : DxfEntity ℚ) : AnalyzerState :=
  let st1 := { st with entity_counts := bumpKey st.entity_counts e.dxftype }
  let st2 :=
    if e.dxftype = "DIMENSION" then
      { st1 with dimensions := st1.dimensions ++
          [{ layer := e.layer, measurement := e.measurement, text := e.text,
             style := e.dimstyle }] }
    else if e.dxftype = "CIRCLE" then
      { st1 with circles := st1.circles ++
          [{ layer := e.layer, radius := some e.radius,
             diameter := some (e.radius * 2),
             center := some [e.center.1, e.center.2.1, e.center.2.2] }] }
    else if e.dxftype = "ARC" then
      { st1 with arcs := st1.arcs ++
          [{ layer := e.layer, radius := e.radius,
             center := (e.center.1, e.center.2.1) }] }
    else if e.dxftype = "TEXT" ∨ e.dxftype = "MTEXT" then
      { st1 with texts := st1.texts ++
          [{ type := e.dxftype, layer := e.layer, text := e.text,
             height := some e.height }] }
    else if e.dxftype = "LINE" then
      { st1 with
          lines := st1.lines ++
            [{ layer := e.layer, start := (e.start.1, e.start.2.1),
               stop := (e.stop.1, e.stop.2.1) }]
          bounds := updateBounds
            (updateBounds st1.bounds e.start.1 e.start.2.1) e.stop.1 e.stop.2.1 }
    else if e.dxftype = "LWPOLYLINE" ∨ e.dxftype = "POLYLINE" then
      { st1 with polylines := st1.polylines ++
          [{ layer := e.layer, points := e.points, closed := e.closed,
             vertex_count := e.points.length }] }
    else if e.dxftype = "INSERT" then
      { st1 with blocks := st1.blocks ++
          [{ layer := e.layer, name := e.name, position := e.insert,
             scale := (e.xscale, e.yscale), rotation := e.rotation }] }
    else if e.dxftype = "HATCH" then
      { st1 with hatches := st1.hatches ++
          [{ layer := e.layer, pattern := e.pattern_name, solid := e.solid_fill,
             scale := e.pattern_scale }] }
    else st1
  { st2 with entities_by_layer := updateByLayer st2.entities_by_layer e.layer e.dxftype }

/-- Translation of `_calculate_drawing_size`. -/
def calculateDrawingSize (b : DrawingBounds) : Option DrawingSize :=
  match b.min_x, b.max_x, b.min_y, b.max_y with
  | some minx, some maxx, some miny, some maxy =>
    some { width := maxx - minx, height := maxy - miny,
           area := (maxx - minx) * (maxy - miny), bounds := b }
  | _, _, _, _ => none

/-- Translation of the successful path of `DXFAnalyzer.analyze_dxf_file`:
the layer table and the entity sequence yielded by the library are inputs;
the result is the `analysis_data` dictionary the method stores. The
initial state is the one produced by `reset_analysis_data`. -/
def analyze_dxf_file (file_info : FileInfo) (layerRows : List LayerInfo)
    (entities : List (DxfEntity ℚ)) : AnalyzerData :=
  let st0 : AnalyzerState :=
    { layers := layerRows, dimensions := [], circles := [], arcs := [], texts := []
      lines := [], polylines := [], blocks := [], hatches := []
      entities_by_layer := [], entity_counts := []
      bounds := ⟨none, none, none, none⟩ }
  let st := entities.foldl processEntity st0
  let summary : SummaryInfo :=
    { total_entities := sumValues st.entity_counts
      layer_count := st.layers.length
      dimension_count := st.dimensions.length
      circle_count := st.circles.length
      arc_count := st.arcs.length
      text_count := st.texts.length
      line_count := st.lines.length
      polyline_count := st.polylines.length
      block_count := st.blocks.length
      hatch_count := st.hatches.length
      entity_breakdown := st.entity_counts
      drawing_size := calculateDrawingSize st.bounds }
  { file_info := file_info
    summary_info := summary
    layers := st.layers
    dimensions := st.dimensions
    circles := st.circles
    arcs := st.arcs
    texts := st.texts
    lines := st.lines
    polylines := st.polylines
    blocks := st.blocks
    hatches := st.hatches
    entities_by_layer := st.entities_by_layer
    entity_breakdown := st.entity_counts
    drawing_bounds := st.bounds }

end DxfAnalyzer

namespace DxfAnalyzer

/-! ## DXFAIIntegration._extract_recommendations and _extract_issues
(src/dxf_ai_integration.py). Lines are handled as character lists;
`str.strip` is modelled for the ASCII whitespace it meets here. -/

/-- `response.split('\n')` by structural recursion over the characters. -/
def splitLinesAux : List Char → List Char → List (List Char)
  | [], acc => [acc.reverse]
  | c :: rest, acc =>
    if c = '\n' then acc.reverse :: splitLinesAux rest []
    else splitLinesAux rest (c :: acc)

/-- The list of lines of a response string. -/
def pySplitLines (s : String) : List (List Char) := splitLinesAux s.data []

/-- `line.strip()` (ASCII whitespace). -/
def pyStrip (l : List Char) : List Char :=
  ((l.dropWhile Char.isWhitespace).reverse.dropWhile Char.isWhitespace).reverse

/-- The bullet prefixes tested by `startswith(('-', '*', '•', '1', '2', '3'))`:
for the single-character prefixes used here this is a test on the first
character of the stripped line. -/
def bulletChars : List Char := ['-', '*', '•', '1', '2', '3']

def isBullet : List Char → Bool
  | [] => false
  | c :: _ => c ∈ bulletChars

/-- The character set of `lstrip('-*•0123456789. ')`. -/
def lstripChars : List Char := "-*•0123456789. ".data

/-- The string appended for an extracted line:
`line.strip().lstrip('-*•0123456789. ')`. -/
def cleanItem (line : List Char) : String :=
  String.mk ((pyStrip line).dropWhile (· ∈ lstripChars))

/-- `any(keyword in line.lower() for keyword in keywords)`. -/
def containsKeyword (keywords : List String) (line : List Char) : Bool :=
  keywords.any fun kw => containsList (line.map asciiLower) kw.data

/-- The line loop shared by `_extract_recommendations` and
`_extract_issues`: a keyword line switches the in-section flag on and is
skipped; afterwards a nonblank bullet line is collected, and a nonblank
non-bullet line breaks out once something was collected. -/
def extractLoop (keywords : List String) :
    List (List Char) → Bool → List String → List String
  | [], _, acc => acc
  | line :: rest, inSection, acc =>
    if containsKeyword keywords line then extractLoop keywords rest true acc
    else if inSection && !(pyStrip line).isEmpty then
      if isBullet (pyStrip line) then
        extractLoop keywords rest inSection (acc ++ [cleanItem line])
      else if 0 < acc.length then acc
      else extractLoop keywords rest inSection acc
    else extractLoop keywords rest inSection acc

def recommendationKeywords : List String := ["권장", "제안", "추천", "recommend"]

def issueKeywords : List String := ["문제", "이슈", "issue", "problem"]

/-- Translation of `_extract_recommendations`. -/
def extract_recommendations (ai_response : String) : List String :=
  (extractLoop recommendationKeywords (pySplitLines ai_response) false []).take 5

/-- Translation of `_extract_issues`. -/
def extract_issues (ai_response : String) : List String :=
  (extractLoop issueKeywords (pySplitLines ai_response) false []).take 5

/-- Concrete strings used by the C8 witness. -/
def sampleNoKeywordResponse : String := "hello\nworld"

def sampleRecommendResponse : String := "recommend:\n- do this"

end DxfAnalyzer

namespace DxfAnalyzer

/-! ## DXFCostEstimator.estimate_total_cost (src/dxf_cost_estimator.py):
the full pipeline behind the entry point, over `ℝ`, with every operation
that can raise in Python made explicit in the `Except String` monad. The
result of `ezdxf.readfile` is an input: a parsed entity list, or the error
message of the raised exception for an unreadable or missing file. -/

/-- The instance attributes of a `DXFCostEstimator`; no method assigns to
them after `__init__`. -/
structure CostState (K : Type) where
  material_prices : List (String × List (String × K))
  material_density : List (String × K)
  machine_rates : List (String × K)
  labor_rates : List (String × K)

/-- The tables set up by `DXFCostEstimator.__init__`. -/
def initCostState (K : Type) [LinearOrderedField K] : CostState K :=
  { material_prices :=
      [("aluminum", [("6061", 8000), ("7075", 12000), ("5052", 7500)]),
       ("steel", [("mild_steel", 3000), ("carbon_steel", 4500), ("alloy_steel", 6000)]),
       ("stainless_steel", [("304", 8500), ("316", 11000), ("430", 7000)]),
       ("titanium", [("grade2", 50000), ("grade5", 65000)]),
       ("plastic", [("pom", 5000), ("nylon", 4500), ("peek", 150000)])]
    material_density :=
      [("aluminum", 2.7), ("steel", 7.85), ("stainless_steel", 7.9),
       ("titanium", 4.5), ("plastic", 1.4)]
    machine_rates :=
      [("3axis_mill", 50000), ("5axis_mill", 80000), ("lathe", 45000),
       ("edm", 70000), ("laser", 60000)]
    labor_rates :=
      [("operator", 25000), ("skilled_machinist", 35000), ("cnc_programmer", 40000)] }

/-- The `material_spec` dictionary parameter; keys are read with
`.get(k, default)`. -/
structure MaterialSpec (K : Type) where
  type : Option String
  grade : Option String
  thickness : Option K
  machine : Option String

structure CostHole (K : Type) where
  diameter : K
  depth : K

structure BBox (K : Type) where
  length : K
  width : K
  height : K

/-- The features dictionary built by `DXFCostEstimator._analyze_geometry`.
`pockets`, `contours` and `surface_area` are initialised and never
updated. -/
structure CostFeatures (K : Type) where
  holes : List (CostHole K)
  pockets : List Unit
  contours : List Unit
  total_cut_length : K
  surface_area : K
  complexity_score : K
  bounding_box : BBox K

/-- Accumulator of the cost geometry scan: the four bounds start at
`float('±inf')` in the source; an untouched bound is modelled as `none`,
which agrees with the source because `min(inf, a, b) = min(a, b)` and
`max(-inf, a, b) = max(a, b)`. -/
structure CostScanState where
  min_x : Option ℝ
  min_y : Option ℝ
  max_x : Option ℝ
  max_y : Option ℝ
  holes : List (CostHole ℝ)
  total_cut_length : ℝ

/-- `bounds[k] = min(bounds[k], a, b)` with an `inf` start. -/
noncomputable def optMin2 (o : Option ℝ) (a b : ℝ) : Option ℝ :=
  some (match o with
    | none => min a b
    | some v => min v (min a b))

/-- `bounds[k] = max(bounds[k], a, b)` with a `-inf` start. -/
noncomputable def optMax2 (o : Option ℝ) (a b : ℝ) : Option ℝ :=
  some (match o with
    | none => max a b
    | some v => max v (max a b))

/-- One entity of the bounding-box / feature scan of
`DXFCostEstimator._analyze_geometry`: only LINE and CIRCLE entities have a
branch. -/
noncomputable def costScanStep (st : CostScanState) (e : DxfEntity ℝ) : CostScanState :=
  if e.dxftype = "LINE" then
    { st with
        min_x := optMin2 st.min_x e.start.1 e.stop.1
        max_x := optMax2 st.max_x e.start.1 e.stop.1
        min_y := optMin2 st.min_y e.start.2.1 e.stop.2.1
        max_y := optMax2 st.max_y e.start.2.1 e.stop.2.1
        total_cut_length := st.total_cut_length +
          Real.sqrt ((e.stop.1 - e.start.1) ^ 2 + (e.stop.2.1 - e.start.2.1) ^ 2 +
            (e.stop.2.2 - e.start.2.2) ^ 2) }
  else if e.dxftype = "CIRCLE" then
    { st with
        min_x := optMin2 st.min_x (e.center.1 - e.radius) (e.center.1 - e.radius)
        max_x := optMax2 st.max_x (e.center.1 + e.radius) (e.center.1 + e.radius)
        min_y := optMin2 st.min_y (e.center.2.1 - e.radius) (e.center.2.1 - e.radius)
        max_y := optMax2 st.max_y (e.center.2.1 + e.radius) (e.center.2.1 + e.radius)
        holes := st.holes ++ [{ diameter := e.radius * 2, depth := 10 }]
        total_cut_length := st.total_cut_length + 2 * Real.pi * e.radius }
  else st

/-- Translation of `_calculate_complexity_score` (1 to 10). -/
noncomputable def calcComplexityScore (holes : List (CostHole ℝ))
    (total_cut_length : ℝ) (bbox : BBox ℝ) : ℝ :=
  let s1 : ℝ := 1.0
  let s2 := if 20 < holes.length then s1 + 2
    else if 10 < holes.length then s1 + 1 else s1
  let s3 := if 1000 < total_cut_length then s2 + 2
    else if 500 < total_cut_length then s2 + 1 else s2
  let s4 := if 10000 < bbox.length * bbox.width then s3 + 1 else s3
  min 10 s4

/-- Translation of `DXFCostEstimator._analyze_geometry`. When no LINE or
CIRCLE entity updated the bounds the source computes the box sides from
IEEE infinities (`-inf`); the collapse to 0 here changes only the reported
magnitudes of that degenerate case, not the shape of the result and not
whether anything raises. -/
noncomputable def analyzeGeometryCost (entities : List (DxfEntity ℝ)) : CostFeatures ℝ :=
  let st := entities.foldl costScanStep ⟨none, none, none, none, [], 0⟩
  let bblength : ℝ := match st.max_x, st.min_x with
    | some a, some b => a - b
    | _, _ => 0
  let bbwidth : ℝ := match st.max_y, st.min_y with
    | some a, some b => a - b
    | _, _ => 0
  let bbox : BBox ℝ := { length := bblength, width := bbwidth, height := 10 }
  { holes := st.holes
    pockets := []
    contours := []
    total_cut_length := st.total_cut_length
    surface_area := 0
    complexity_score := calcComplexityScore st.holes st.total_cut_length bbox
    bounding_box := bbox }

/-- Translation of `_calculate_material_cost`. -/
noncomputable def calcMaterialCost (st : CostState ℝ) (geometry : CostFeatures ℝ)
    (material_spec : MaterialSpec ℝ) (qty : ℤ) : MaterialCost ℝ :=
  let material_type := material_spec.type.getD "aluminum"
  let material_grade := material_spec.grade.getD "6061"
  let margin : ℝ := 5
  let raw_length := geometry.bounding_box.length + 2 * margin
  let raw_width := geometry.bounding_box.width + 2 * margin
  let raw_height := material_spec.thickness.getD 10
  let raw_volume := raw_length * raw_width * raw_height / 1000
  let used_volume := raw_volume * 0.7
  let waste_volume := raw_volume - used_volume
  let density := (st.material_density.lookup material_type).getD 2.7
  let raw_weight := raw_volume * density / 1000
  let unit_price := (((st.material_prices.lookup material_type).getD []).lookup
    material_grade).getD 8000
  let total_cost := raw_weight * unit_price
  let total_cost :=
    if 100 < qty then total_cost * 0.9
    else if 50 < qty then total_cost * 0.95
    else total_cost
  { material_type := material_type ++ " " ++ material_grade
    raw_stock_size := (raw_length, raw_width, raw_height)
    volume_used := used_volume
    volume_waste := waste_volume
    unit_price := unit_price
    total_cost := total_cost }

/-- Translation of `_calculate_machining_cost`. -/
noncomputable def calcMachiningCost (st : CostState ℝ) (geometry : CostFeatures ℝ)
    (material_spec : MaterialSpec ℝ) (qty : ℤ) : MachiningCost ℝ :=
  let material_type := material_spec.type.getD "aluminum"
  let machine_type := material_spec.machine.getD "3axis_mill"
  let material_factors : List (String × ℝ) :=
    [("aluminum", 1.0), ("steel", 1.5), ("stainless_steel", 2.0),
     ("titanium", 3.0), ("plastic", 0.8)]
  let material_factor := (material_factors.lookup material_type).getD 1.0
  let base_setup_time : ℝ :=
    if 7 < geometry.complexity_score then 30 + 20
    else if 5 < geometry.complexity_score then 30 + 10
    else 30
  let cutting_speed := 300 / material_factor
  let cutting_time := geometry.total_cut_length / cutting_speed * 1.5
  let drilling_time := (geometry.holes.length : ℝ) * 2 * material_factor
  let tool_changes : ℕ := max 3 (geometry.holes.length / 10 + 2)
  let tool_change_time := (tool_changes : ℝ) * 2
  let total_time := base_setup_time + cutting_time + drilling_time + tool_change_time
  let setup_time_per_unit := if 1 < qty then base_setup_time / (qty : ℝ) else base_setup_time
  let machine_rate := (st.machine_rates.lookup machine_type).getD 50000
  let labor_rate := (st.labor_rates.lookup "skilled_machinist").getD 35000
  let total_hours := total_time / 60
  let total_cost := total_hours * (machine_rate + labor_rate)
  { setup_time := setup_time_per_unit
    cutting_time := cutting_time
    tool_change_time := tool_change_time
    machine_rate := machine_rate
    labor_rate := labor_rate
    total_cost := total_cost }

/-- Translation of `_calculate_tooling_cost`. -/
noncomputable def calcToolingCost (st : CostState ℝ) (geometry : CostFeatures ℝ)
    (material_spec : MaterialSpec ℝ) (qty : ℤ) : ToolingCost ℝ :=
  let base : List (ToolRequired ℝ) :=
    [{ ttype := "End Mill 6mm", unit_cost := 50000, life_parts := 500, quantity := 2 }]
  let tools_required :=
    if geometry.holes.isEmpty then base
    else
      let unique_diameters :=
        min 5 ((geometry.holes.map CostHole.diameter).dedup.length)
      base ++ (List.range unique_diameters).map fun i =>
        { ttype := "Drill Bit " ++ toString (i + 1), unit_cost := 20000,
          life_parts := 200, quantity := 1 }
  let tool_wear_cost := (tools_required.map fun tool =>
    tool.unit_cost / tool.life_parts * tool.quantity).sum
  let consumables_cost := geometry.total_cut_length * 0.5
  let total_cost := tool_wear_cost + consumables_cost
  { tools_required := tools_required
    tool_wear_cost := tool_wear_cost
    consumables_cost := consumables_cost
    total_cost := total_cost }

/-- Translation of `_suggest_cost_reduction`. -/
noncomputable def suggestCostReduction (geometry : CostFeatures ℝ)
    (material_spec : MaterialSpec ℝ) (qty : ℤ) : List String :=
  (if qty < 10 then ["수량을 10개 이상으로 늘리면 단가를 5% 절감할 수 있습니다"]
   else if qty < 50 then ["수량을 50개 이상으로 늘리면 단가를 추가 5% 절감할 수 있습니다"]
   else [])
  ++ (if material_spec.type = some "stainless_steel" then
        ["일반 강재로 변경 후 표면처리하면 30% 비용 절감 가능"]
      else if material_spec.type = some "titanium" then
        ["알루미늄 합금으로 대체 검토 시 60% 비용 절감 가능"]
      else [])
  ++ (if 20 < geometry.holes.length then
        ["구멍 개수를 줄이거나 표준 크기로 통일하면 가공비 20% 절감"]
      else [])
  ++ (if 7 < geometry.complexity_score then ["설계 단순화로 가공 시간 30% 단축 가능"] else [])
  ++ (if geometry.bounding_box.length * geometry.bounding_box.width < 100 then
        ["레이저 커팅으로 전환 시 소량 생산 비용 절감"]
      else [])

/-- The full result dictionary of `estimate_total_cost`. -/
structure CostEstimate (K : Type) where
  production_quantity : ℤ
  material_cost : MaterialCost K
  machining_cost : MachiningCost K
  tooling_cost : ToolingCost K
  additional_costs : AdditionalCosts K
  unit_cost : K
  quantity_discount : K
  total_production_cost : K
  unit_price_after_discount : K
  cost_breakdown_chart : CostBreakdown K
  cost_reduction_suggestions : List String

/-- Outcome of an estimator entry point: the full result dictionary, or
the dictionary `{'error': msg}`. -/
inductive CostOutcome (K : Type) where
  | success (result : CostEstimate K)
  | failure (error : String)

/-- The body of the `try` block of `estimate_total_cost`. The two
divisions that can raise ZeroDivisionError in Python are made explicit:
the per-unit price divides by the production quantity, and the breakdown
chart divides by the combined total (hoisted here in evaluation order
before `generate_cost_breakdown` is entered). -/
noncomputable def estimateTotalCostBody (st : CostState ℝ)
    (readResult : Except String (List (DxfEntity ℝ))) (material_spec : MaterialSpec ℝ)
    (production_qty : ℤ) : Except String (CostEstimate ℝ) := do
  let msp ← readResult
  let geometry := analyzeGeometryCost msp
  let material_cost := calcMaterialCost st geometry material_spec production_qty
  let machining_cost := calcMachiningCost st geometry material_spec production_qty
  let tooling_cost := calcToolingCost st geometry material_spec production_qty
  let additional_costs := calculate_additional_costs material_cost machining_cost tooling_cost
  let quantity_discount : ℝ := apply_quantity_discount production_qty
  let total_unit_cost := material_cost.total_cost + machining_cost.total_cost +
    tooling_cost.total_cost + additional_costs.total
  let total_production_cost := total_unit_cost * (production_qty : ℝ) * (1 - quantity_discount)
  let unit_price_after_discount ←
    if production_qty = 0 then Except.error "float division by zero"
    else pure (total_production_cost / (production_qty : ℝ))
  let cost_breakdown_chart ←
    if total_unit_cost = 0 then Except.error "float division by zero"
    else pure (generate_cost_breakdown material_cost machining_cost tooling_cost
      additional_costs)
  pure
    { production_quantity := production_qty
      material_cost := material_cost
      machining_cost := machining_cost
      tooling_cost := tooling_cost
      additional_costs := additional_costs
      unit_cost := total_unit_cost
      quantity_discount := quantity_discount * 100
      total_production_cost := total_production_cost
      unit_price_after_discount := unit_price_after_discount
      cost_breakdown_chart := cost_breakdown_chart
      cost_reduction_suggestions := suggestCostReduction geometry material_spec production_qty }

/-- Translation of `DXFCostEstimator.estimate_total_cost`: the body runs
under `try`, and `except Exception as e` returns `{'error': str(e)}`. The
state is threaded to record that no method mutates it. -/
noncomputable def estimate_total_cost (st : CostState ℝ)
    (readResult : Except String (List (DxfEntity ℝ))) (material_spec : MaterialSpec ℝ)
    (production_qty : ℤ) : CostOutcome ℝ × CostState ℝ :=
  (match estimateTotalCostBody st readResult material_spec production_qty with
   | Except.ok r => CostOutcome.success r
   | Except.error e => CostOutcome.failure e, st)

/-- Sample material specification used by the C9 witness. -/
def sampleSpec : MaterialSpec ℝ := ⟨none, none, none, none⟩

end DxfAnalyzer

namespace DxfAnalyzer

/-! ## DXFCNCAnalyzer.analyze_machinability (src/dxf_cnc_analyzer.py): the
full pipeline behind the entry point, over `ℝ`; the operations that can
raise (`readfile`, the eager `tool_library['aluminum']` default, the
`material_params[material]` lookups and the feed-rate division) run in the
`Except String` monad. -/

/-- Translation of `_calculate_polygon_area` (shoelace formula with the
cyclic successor `(i + 1) % n`). -/
noncomputable def polygonArea (points : List (ℝ × ℝ)) : ℝ :=
  |((points.zip (points.rotate 1)).map fun pq =>
      pq.1.1 * pq.2.2 - pq.2.1 * pq.1.2).sum| / 2

/-- Cut length of the successive segments of a polyline. -/
noncomputable def polylineCutLength (points : List (ℝ × ℝ)) : ℝ :=
  ((points.zip points.tail).map fun pq =>
    Real.sqrt ((pq.2.1 - pq.1.1) ^ 2 + (pq.2.2 - pq.1.2) ^ 2)).sum

/-- One entity of the scan of `DXFCNCAnalyzer._analyze_geometry`. -/
noncomputable def cncScanStep (g : CncGeometry ℝ) (e : DxfEntity ℝ) : CncGeometry ℝ :=
  let g := { g with total_entities := g.total_entities + 1 }
  if e.dxftype = "CIRCLE" then
    let g := { g with holes := g.holes ++
      [{ center := e.center, radius := e.radius, diameter := e.radius * 2 }] }
    if (e.radius : WithTop ℝ) < g.min_radius then
      { g with min_radius := (e.radius : WithTop ℝ) }
    else g
  else if e.dxftype = "ARC" then
    let g :=
      if (e.radius : WithTop ℝ) < g.min_radius then
        { g with min_radius := (e.radius : WithTop ℝ) }
      else g
    { g with total_cut_length := g.total_cut_length +
        e.radius * (|e.end_angle - e.start_angle| * Real.pi / 180) }
  else if e.dxftype = "LINE" then
    { g with total_cut_length := g.total_cut_length +
        Real.sqrt ((e.stop.1 - e.start.1) ^ 2 + (e.stop.2.1 - e.start.2.1) ^ 2 +
          (e.stop.2.2 - e.start.2.2) ^ 2) }
  else if e.dxftype = "LWPOLYLINE" then
    if 2 < e.points.length then
      let g :=
        if e.is_closed then
          { g with contours := g.contours ++
              [{ ctype := "closed_polyline", points := e.points,
                 area := polygonArea e.points }] }
        else g
      { g with total_cut_length := g.total_cut_length + polylineCutLength e.points }
    else g
  else g

/-- Translation of `DXFCNCAnalyzer._analyze_geometry`. -/
noncomputable def analyzeGeometryCnc (entities : List (DxfEntity ℝ)) : CncGeometry ℝ :=
  let g0 : CncGeometry ℝ :=
    { total_entities := 0, contours := [], pockets := [], holes := [], min_radius := ⊤
      max_depth := 0, min_wall_thickness := ⊤, total_cut_length := 0
      bounding_box := none, complexity_features := [] }
  let g := entities.foldl cncScanStep g0
  let g :=
    if g.min_radius < ((1.0 : ℝ) : WithTop ℝ) then
      { g with complexity_features := g.complexity_features ++ ["small_radius_corners"] }
    else g
  let g :=
    if 20 < g.holes.length then
      { g with complexity_features := g.complexity_features ++ ["many_holes"] }
    else g
  if 1000 < g.total_cut_length then
    { g with complexity_features := g.complexity_features ++ ["long_cutting_path"] }
  else g

/-- A `ToolRecommendation` dataclass. For drill entries the display
`reason` string interpolates the diameter already carried by the record;
the interpolation is not rendered. -/
structure ToolRec (K : Type) where
  tool_type : String
  diameter : K
  material : String
  coating : String
  cutting_speed : K
  feed_rate : K
  depth_of_cut : K
  reason : String

/-- Translation of `_recommend_tools`. Python evaluates the default of
`self.tool_library.get(material, self.tool_library['aluminum'])` eagerly,
so a table without an aluminum entry raises KeyError for every material;
in the `min_radius < 3` branch the radius is finite, so `untop' 0` is
never the junk value. -/
noncomputable def recommendToolsE (st : CncState ℝ) (geometry : CncGeometry ℝ)
    (material : String) : Except String (List (ToolRec ℝ)) :=
  match st.tool_library.lookup "aluminum" with
  | none => Except.error "'aluminum'"
  | some fallback =>
    let material_tools := (st.tool_library.lookup material).getD fallback
    Except.ok <|
      (if geometry.contours.isEmpty then [] else
        [{ tool_type := "End Mill", diameter := 6.0, material := "Carbide"
           coating := "TiAlN", cutting_speed := material_tools.cutting_speed
           feed_rate := material_tools.feed_rate, depth_of_cut := 2.0
           reason := "윤곽 가공 및 포켓 가공용" }])
      ++ (if geometry.holes.isEmpty then [] else
        (((geometry.holes.map CncHole.diameter).dedup.mergeSort
            fun a b => decide (a ≤ b)).take 3).map fun diameter =>
          { tool_type := "Drill", diameter := diameter, material := "HSS-Co"
            coating := "TiN", cutting_speed := material_tools.drilling_speed
            feed_rate := material_tools.drilling_feed
            depth_of_cut := diameter * 0.5, reason := "구멍 가공용" })
      ++ (if geometry.min_radius < ((3.0 : ℝ) : WithTop ℝ) then
        [{ tool_type := "Ball End Mill"
           diameter := geometry.min_radius.untop' 0 * 1.5, material := "Carbide"
           coating := "DLC", cutting_speed := material_tools.cutting_speed * 0.8
           feed_rate := material_tools.feed_rate * 0.6
           depth_of_cut := geometry.min_radius.untop' 0 * 0.3
           reason := "작은 반경 코너 가공용" }]
      else [])

structure MachiningTime (K : Type) where
  total_minutes : K
  cutting_time : K
  drilling_time : K
  tool_change_time : K
  setup_time : K
  efficiency_tips : List String

/-- Translation of `_get_efficiency_tips`. -/
noncomputable def efficiencyTips (geometry : CncGeometry ℝ)
    (tools : List (ToolRec ℝ)) : List String :=
  (if 20 < geometry.holes.length then ["TSP 알고리즘으로 구멍 가공 순서 최적화"] else [])
  ++ (if 500 < geometry.total_cut_length then ["고속 가공(HSM) 전략 적용 검토"] else [])
  ++ (if 5 < tools.length then ["자동 공구 교환장치(ATC) 활용"] else [])

/-- Translation of `_estimate_machining_time`;
`self.material_params[material]` raises KeyError for an unknown material,
and the cutting-time division raises iff the average feed rate is zero
with a nonempty tool list. -/
noncomputable def estimateMachiningTimeE (st : CncState ℝ) (geometry : CncGeometry ℝ)
    (material : String) (tools : List (ToolRec ℝ)) : Except String (MachiningTime ℝ) := do
  let mp ← match st.material_params.lookup material with
    | some mp => pure mp
    | none => Except.error ("'" ++ material ++ "'")
  let material_factor := mp.machinability_factor
  let cutting_time ←
    if tools.isEmpty then pure (0 : ℝ)
    else
      let avg_feed_rate := (tools.map ToolRec.feed_rate).sum / (tools.length : ℝ)
      if avg_feed_rate = 0 then Except.error "float division by zero"
      else pure (geometry.total_cut_length / avg_feed_rate * material_factor)
  let tool_change_time := (tools.length : ℝ) * 1.5
  let setup_time : ℝ :=
    if "complex_contour" ∈ geometry.complexity_features then 15.0 + 10.0 else 15.0
  let drilling_time : ℝ :=
    if geometry.holes.isEmpty then 0
    else (geometry.holes.length : ℝ) * 0.5 * material_factor
  let total_time := cutting_time + tool_change_time + setup_time + drilling_time
  pure
    { total_minutes := pyRound total_time 1
      cutting_time := pyRound cutting_time 1
      drilling_time := pyRound drilling_time 1
      tool_change_time := pyRound tool_change_time 1
      setup_time := pyRound setup_time 1
      efficiency_tips := efficiencyTips geometry tools }

structure Toolpath (K : Type) where
  current_efficiency : K
  optimization_potential : K
  recommendations : List String

/-- Translation of `_analyze_toolpath_optimization`. -/
noncomputable def analyzeToolpathOptimization (geometry : CncGeometry ℝ) : Toolpath ℝ :=
  if 0 < geometry.total_cut_length then
    { current_efficiency := 75
      optimization_potential := if 10 < geometry.holes.length then 20 else 0
      recommendations :=
        (if 10 < geometry.holes.length then
          ["구멍 가공 순서 최적화로 이동 시간 20% 단축 가능"] else [])
        ++ (if "many_holes" ∈ geometry.complexity_features then
          ["페킹(Pecking) 드릴링 사이클 사용 권장"] else [])
        ++ (if geometry.contours.isEmpty then [] else
          ["적응형 클리어링(Adaptive Clearing) 전략으로 공구 수명 연장"]) }
  else { current_efficiency := 0, optimization_potential := 0, recommendations := [] }

/-- Issue entry of `_identify_machining_issues`; the display description
interpolates values already present in the geometry and is not
represented. -/
structure MachiningIssue where
  itype : String
  severity : String
  solution : String
  deriving DecidableEq

/-- Translation of `_identify_machining_issues`. -/
noncomputable def identifyMachiningIssues (geometry : CncGeometry ℝ)
    (material : String) : List MachiningIssue :=
  (if geometry.min_radius < ((0.5 : ℝ) : WithTop ℝ) then
    [⟨"small_radius", "high", "와이어 EDM 또는 마이크로 엔드밀 사용 검토"⟩] else [])
  ++ (if geometry.min_wall_thickness < ((1.0 : ℝ) : WithTop ℝ) then
    [⟨"thin_wall", "medium", "저속 가공 및 다단계 절삭 적용"⟩] else [])
  ++ (if 50 < geometry.max_depth then
    [⟨"deep_pocket", "medium", "헬리컬 가공 및 충분한 절삭유 공급"⟩] else [])
  ++ (if material = "stainless_steel" then
    [⟨"material_hardness", "low", "코팅 공구 사용 및 적절한 절삭 조건 유지"⟩] else [])

structure CostFactors (K : Type) where
  machining_cost : K
  tool_cost : K
  material_factor : K
  total_estimated_cost : K
  labor : K
  machine : K
  tooling : K
  overhead : K

/-- Translation of `_calculate_cost_factors`; the
`material_params[material]` lookup raises KeyError for unknown
materials. -/
noncomputable def calcCostFactorsE (st : CncState ℝ) (machining_time : MachiningTime ℝ)
    (tools : List (ToolRec ℝ)) (material : String) : Except String (CostFactors ℝ) := do
  let machine_rate : ℝ := 50000
  let total_hours := machining_time.total_minutes / 60
  let machining_cost := total_hours * machine_rate
  let tool_cost := (tools.length : ℝ) * 20000
  let mp ← match st.material_params.lookup material with
    | some mp => pure mp
    | none => Except.error ("'" ++ material ++ "'")
  let material_factor := mp.cost_factor
  pure
    { machining_cost := pyRound machining_cost 0
      tool_cost := pyRound tool_cost 0
      material_factor := material_factor
      total_estimated_cost := pyRound ((machining_cost + tool_cost) * material_factor) 0
      labor := pyRound (machining_cost * 0.4) 0
      machine := pyRound (machining_cost * 0.6) 0
      tooling := pyRound tool_cost 0
      overhead := pyRound (machining_cost * 0.2) 0 }

/-- The full result dictionary of `analyze_machinability`. -/
structure CncReport (K : Type) where
  material : String
  geometry_analysis : CncGeometry K
  machinability_score : MachinabilityScore K
  tool_recommendations : List (ToolRec K)
  machining_time : MachiningTime K
  toolpath_optimization : Toolpath K
  potential_issues : List MachiningIssue
  cost_factors : CostFactors K

inductive CncOutcome (K : Type) where
  | success (result : CncReport K)
  | failure (error : String)

/-- The body of the `try` block of `analyze_machinability`. -/
noncomputable def analyzeMachinabilityBody (st : CncState ℝ)
    (readResult : Except String (List (DxfEntity ℝ))) (material : String) :
    Except String (CncReport ℝ) := do
  let msp ← readResult
  let geometry := analyzeGeometryCnc msp
  let machinability_score := calculate_machinability_score st geometry material
  let tools ← recommendToolsE st geometry material
  let machining_time ← estimateMachiningTimeE st geometry material tools
  let toolpath := analyzeToolpathOptimization geometry
  let issues := identifyMachiningIssues geometry material
  let cost_factors ← calcCostFactorsE st machining_time tools material
  pure
    { material := material
      geometry_analysis := geometry
      machinability_score := machinability_score
      tool_recommendations := tools
      machining_time := machining_time
      toolpath_optimization := toolpath
      potential_issues := issues
      cost_factors := cost_factors }

/-- Translation of `DXFCNCAnalyzer.analyze_machinability`: the body runs
under `try`, and `except Exception as e` returns `{'error': str(e)}`. The
state is threaded to record that no method mutates it. -/
noncomputable def analyze_machinability (st : CncState ℝ)
    (readResult : Except String (List (DxfEntity ℝ))) (material : String) :
    CncOutcome ℝ × CncState ℝ :=
  (match analyzeMachinabilityBody st readResult material with
   | Except.ok r => CncOutcome.success r
   | Except.error e => CncOutcome.failure e, st)

end DxfAnalyzer

namespace DxfAnalyzer

/-! ## Theorems -/

@[simp] theorem sumValues_nil {α : Type} : sumValues ([] : List (α × ℕ)) = 0 := rfl

@[simp] theorem sumValues_cons {α : Type} (p : α × ℕ) (l : List (α × ℕ)) :
    sumValues (p :: l) = p.2 + sumValues l := by
  simp [sumValues]

theorem sumValues_bumpKey {α : Type} [DecidableEq α] (l : List (α × ℕ)) (t : α) :
    sumValues (bumpKey l t) = sumValues l + 1 := by
  induction l with
  | nil => simp [bumpKey]
  | cons p rest ih =>
    obtain ⟨k, v⟩ := p
    by_cases h : k = t <;> simp [bumpKey, h, ih] <;> omega

/-- C4: for every input analysis dictionary, `calculate_drawing_complexity`
returns `overall_complexity = 0.5*min(total_entities/10000, 1) +
0.3*min(layer_count/50, 1) + 0.2*min(entity_type_count/20, 1)` with
`total_entities` and `layer_count` read from `summary_info` and
`entity_type_count` the number of keys of `entity_breakdown`, and the
result always lies in the closed interval `[0, 1]`. -/
theorem c4_drawing_complexity_weighted_sum_and_bounds (d : AnalyzerData) :
    (calculate_drawing_complexity d).overall_complexity =
        0.5 * min ((d.summary_info.total_entities : ℚ) / 10000) 1
      + 0.3 * min ((d.summary_info.layer_count : ℚ) / 50) 1
      + 0.2 * min ((d.entity_breakdown.length : ℚ) / 20) 1
    ∧ 0 ≤ (calculate_drawing_complexity d).overall_complexity
    ∧ (calculate_drawing_complexity d).overall_complexity ≤ 1 := by
  have e1 : (0 : ℚ) ≤ min ((d.summary_info.total_entities : ℚ) / 10000) 1 :=
    le_min (by positivity) (by norm_num)
  have e2 : (0 : ℚ) ≤ min ((d.summary_info.layer_count : ℚ) / 50) 1 :=
    le_min (by positivity) (by norm_num)
  have e3 : (0 : ℚ) ≤ min ((d.entity_breakdown.length : ℚ) / 20) 1 :=
    le_min (by positivity) (by norm_num)
  have u1 := min_le_right ((d.summary_info.total_entities : ℚ) / 10000) 1
  have u2 := min_le_right ((d.summary_info.layer_count : ℚ) / 50) 1
  have u3 := min_le_right ((d.entity_breakdown.length : ℚ) / 20) 1
  simp only [calculate_drawing_complexity]
  refine ⟨by ring, by nlinarith, by nlinarith⟩

/-- C1: `analyze_drawing_quality` returns an overall score equal to
`max(0, 100 - 0.2*(100 - layer_score) - 0.3*(100 - dimension_score) -
0.1*(100 - distribution_score) - 0.1*(100 - text_score) - p)` where the
four sub-scores are those returned by the four evaluators on the
corresponding fields and `p` is a flat 10-point penalty applied exactly
when the overall complexity computed by `calculate_drawing_complexity`
exceeds `0.8`. -/
theorem c1_quality_overall_score_formula (d : AnalyzerData) :
    (analyze_drawing_quality d).overall_score =
      max 0 (100
        - 0.2 * (100 - (evalLayerOrganization d.layers).1)
        - 0.3 * (100 - (evalDimensions d.dimensions).1)
        - 0.1 * (100 - (evalEntityDistribution d.entity_breakdown).1)
        - 0.1 * (100 - (evalTextConsistency d.texts).1)
        - (if 0.8 < (calculate_drawing_complexity d).overall_complexity then (10 : ℚ) else 0))
    ∧ (analyze_drawing_quality d).layer_score = (evalLayerOrganization d.layers).1
    ∧ (analyze_drawing_quality d).dimension_score = (evalDimensions d.dimensions).1
    ∧ (analyze_drawing_quality d).distribution_score
        = (evalEntityDistribution d.entity_breakdown).1
    ∧ (analyze_drawing_quality d).text_score = (evalTextConsistency d.texts).1 := by
  refine ⟨?_, rfl, rfl, rfl, rfl⟩
  simp only [analyze_drawing_quality]
  by_cases h : (0.8 : ℚ) < (calculate_drawing_complexity d).overall_complexity
  · simp only [if_pos h]
    congr 1
    ring
  · simp only [if_neg h]
    congr 1
    ring

end DxfAnalyzer

namespace DxfAnalyzer

/-- Helper: positivity of the scientific literals used by the cost model. -/
theorem q_005_pos : (0 : ℚ) < 0.05 := by norm_num

theorem q_015_pos : (0 : ℚ) < 0.15 := by norm_num

theorem q_020_pos : (0 : ℚ) < 0.20 := by norm_num

/-- C2: `_calculate_machinability_score` returns an overall score equal to
the weighted sum `0.25*complexity + 0.25*tool_access + 0.20*tolerance +
0.15*surface_finish + 0.15*material_removal`, with the tolerance component
the constant 85 and the surface-finish component the constant 90, and the
grade determined by the thresholds 90/80/70/60. -/
theorem c2_machinability_weighted_sum_and_grade
    (st : CncState ℚ) (g : CncGeometry ℚ) (material : String) :
    (calculate_machinability_score st g material).overall_score =
        0.25 * (calculate_machinability_score st g material).complexity_score
      + 0.25 * (calculate_machinability_score st g material).tool_access_score
      + 0.20 * (calculate_machinability_score st g material).tolerance_score
      + 0.15 * (calculate_machinability_score st g material).surface_finish_score
      + 0.15 * (calculate_machinability_score st g material).material_removal_score
    ∧ (calculate_machinability_score st g material).tolerance_score = 85
    ∧ (calculate_machinability_score st g material).surface_finish_score = 90
    ∧ ((calculate_machinability_score st g material).grade = "A"
        ↔ 90 ≤ (calculate_machinability_score st g material).overall_score)
    ∧ ((calculate_machinability_score st g material).grade = "B"
        ↔ 80 ≤ (calculate_machinability_score st g material).overall_score
          ∧ (calculate_machinability_score st g material).overall_score < 90)
    ∧ ((calculate_machinability_score st g material).grade = "C"
        ↔ 70 ≤ (calculate_machinability_score st g material).overall_score
          ∧ (calculate_machinability_score st g material).overall_score < 80)
    ∧ ((calculate_machinability_score st g material).grade = "D"
        ↔ 60 ≤ (calculate_machinability_score st g material).overall_score
          ∧ (calculate_machinability_score st g material).overall_score < 70)
    ∧ ((calculate_machinability_score st g material).grade = "F"
        ↔ (calculate_machinability_score st g material).overall_score < 60) := by
  simp only [calculate_machinability_score, scoreToleranceFeasibility, scoreSurfaceFinish]
  split_ifs with h1 h2 h3 h4
  · exact ⟨by ring, by norm_num, by norm_num,
      iff_of_true rfl h1,
      iff_of_false (by decide) fun h => absurd h.2 (not_lt.mpr h1),
      iff_of_false (by decide) fun h =>
        absurd h.2 (not_lt.mpr (le_trans (by norm_num) h1)),
      iff_of_false (by decide) fun h =>
        absurd h.2 (not_lt.mpr (le_trans (by norm_num) h1)),
      iff_of_false (by decide) (not_lt.mpr (le_trans (by norm_num) h1))⟩
  · exact ⟨by ring, by norm_num, by norm_num,
      iff_of_false (by decide) h1,
      iff_of_true rfl ⟨h2, not_le.mp h1⟩,
      iff_of_false (by decide) fun h => absurd h.2 (not_lt.mpr h2),
      iff_of_false (by decide) fun h =>
        absurd h.2 (not_lt.mpr (le_trans (by norm_num) h2)),
      iff_of_false (by decide) (not_lt.mpr (le_trans (by norm_num) h2))⟩
  · exact ⟨by ring, by norm_num, by norm_num,
      iff_of_false (by decide) h1,
      iff_of_false (by decide) fun h => absurd h.1 h2,
      iff_of_true rfl ⟨h3, not_le.mp h2⟩,
      iff_of_false (by decide) fun h => absurd h.2 (not_lt.mpr h3),
      iff_of_false (by decide) (not_lt.mpr (le_trans (by norm_num) h3))⟩
  · exact ⟨by ring, by norm_num, by norm_num,
      iff_of_false (by decide) h1,
      iff_of_false (by decide) fun h => absurd h.1 h2,
      iff_of_false (by decide) fun h => absurd h.1 h3,
      iff_of_true rfl ⟨h4, not_le.mp h3⟩,
      iff_of_false (by decide) (not_lt.mpr h4)⟩
  · exact ⟨by ring, by norm_num, by norm_num,
      iff_of_false (by decide) h1,
      iff_of_false (by decide) fun h => absurd h.1 h2,
      iff_of_false (by decide) fun h => absurd h.1 h3,
      iff_of_false (by decide) fun h => absurd h.1 h4,
      iff_of_true rfl (not_le.mp h4)⟩

/-- C5: `_apply_quantity_discount` is the fixed step function of the
production quantity with plateaus 0, 0.05, 0.10, 0.15, 0.20, 0.25 at the
breakpoints 10, 50, 100, 500, 1000; it is monotone non-decreasing and
takes no other values. -/
theorem c5_quantity_discount_step_monotone :
    (∀ q : ℤ, q < 10 → apply_quantity_discount (K := ℚ) q = 0)
    ∧ (∀ q : ℤ, 10 ≤ q → q ≤ 49 → apply_quantity_discount (K := ℚ) q = 0.05)
    ∧ (∀ q : ℤ, 50 ≤ q → q ≤ 99 → apply_quantity_discount (K := ℚ) q = 0.10)
    ∧ (∀ q : ℤ, 100 ≤ q → q ≤ 499 → apply_quantity_discount (K := ℚ) q = 0.15)
    ∧ (∀ q : ℤ, 500 ≤ q → q ≤ 999 → apply_quantity_discount (K := ℚ) q = 0.20)
    ∧ (∀ q : ℤ, 1000 ≤ q → apply_quantity_discount (K := ℚ) q = 0.25)
    ∧ (∀ q r : ℤ, q ≤ r →
        apply_quantity_discount (K := ℚ) q ≤ apply_quantity_discount (K := ℚ) r)
    ∧ (∀ q : ℤ, apply_quantity_discount (K := ℚ) q
        ∈ ([0, 0.05, 0.10, 0.15, 0.20, 0.25] : List ℚ)) := by
  refine ⟨?_, ?_, ?_, ?_, ?_, ?_, ?_, ?_⟩
  · intro q h; unfold apply_quantity_discount
    split_ifs <;> first | (exfalso; omega) | norm_num
  · intro q h1 h2; unfold apply_quantity_discount
    split_ifs <;> first | (exfalso; omega) | norm_num
  · intro q h1 h2; unfold apply_quantity_discount
    split_ifs <;> first | (exfalso; omega) | norm_num
  · intro q h1 h2; unfold apply_quantity_discount
    split_ifs <;> first | (exfalso; omega) | norm_num
  · intro q h1 h2; unfold apply_quantity_discount
    split_ifs <;> first | (exfalso; omega) | norm_num
  · intro q h; unfold apply_quantity_discount
    split_ifs <;> first | (exfalso; omega) | norm_num
  · intro q r h; unfold apply_quantity_discount
    split_ifs <;> first | (exfalso; omega) | norm_num
  · intro q; unfold apply_quantity_discount
    split_ifs <;> norm_num

/-- Witness for C5 at concrete quantities. -/
theorem c5_quantity_discount_witness :
    apply_quantity_discount (K := ℚ) 5 = 0
    ∧ apply_quantity_discount (K := ℚ) 10 = 0.05
    ∧ apply_quantity_discount (K := ℚ) 50 = 0.10
    ∧ apply_quantity_discount (K := ℚ) 100 = 0.15
    ∧ apply_quantity_discount (K := ℚ) 500 = 0.20
    ∧ apply_quantity_discount (K := ℚ) 1000 = 0.25
    ∧ apply_quantity_discount (K := ℚ) 3 ≤ apply_quantity_discount (K := ℚ) 2000 :=
  ⟨c5_quantity_discount_step_monotone.1 5 (by decide),
   c5_quantity_discount_step_monotone.2.1 10 (by decide) (by decide),
   c5_quantity_discount_step_monotone.2.2.1 50 (by decide) (by decide),
   c5_quantity_discount_step_monotone.2.2.2.1 100 (by decide) (by decide),
   c5_quantity_discount_step_monotone.2.2.2.2.1 500 (by decide) (by decide),
   c5_quantity_discount_step_monotone.2.2.2.2.2.1 1000 (by decide),
   c5_quantity_discount_step_monotone.2.2.2.2.2.2.1 3 2000 (by decide)⟩

/-- C10: when the combined total is positive, the six percentage fields of
`_generate_cost_breakdown` sum exactly to 100 in exact rational
arithmetic. -/
theorem c10_cost_breakdown_percentages_sum
    (material : MaterialCost ℚ) (machining : MachiningCost ℚ) (tooling : ToolingCost ℚ)
    (hpos : 0 < material.total_cost + machining.total_cost + tooling.total_cost +
      (calculate_additional_costs material machining tooling).total) :
    (generate_cost_breakdown material machining tooling
        (calculate_additional_costs material machining tooling)).material.percentage
    + (generate_cost_breakdown material machining tooling
        (calculate_additional_costs material machining tooling)).machining.percentage
    + (generate_cost_breakdown material machining tooling
        (calculate_additional_costs material machining tooling)).tooling.percentage
    + (generate_cost_breakdown material machining tooling
        (calculate_additional_costs material machining tooling)).quality_control.percentage
    + (generate_cost_breakdown material machining tooling
        (calculate_additional_costs material machining tooling)).overhead.percentage
    + (generate_cost_breakdown material machining tooling
        (calculate_additional_costs material machining tooling)).profit.percentage
    = 100 := by
  have hne : material.total_cost + machining.total_cost + tooling.total_cost +
      (calculate_additional_costs material machining tooling).total ≠ 0 := ne_of_gt hpos
  simp only [generate_cost_breakdown, calculate_additional_costs] at hne ⊢
  field_simp
  ring

/-- Witness for C10 at concrete cost records. -/
theorem c10_cost_breakdown_witness :
    (generate_cost_breakdown sampleMaterialCost sampleMachiningCost sampleToolingCost
        (calculate_additional_costs sampleMaterialCost sampleMachiningCost sampleToolingCost)).material.percentage
    + (generate_cost_breakdown sampleMaterialCost sampleMachiningCost sampleToolingCost
        (calculate_additional_costs sampleMaterialCost sampleMachiningCost sampleToolingCost)).machining.percentage
    + (generate_cost_breakdown sampleMaterialCost sampleMachiningCost sampleToolingCost
        (calculate_additional_costs sampleMaterialCost sampleMachiningCost sampleToolingCost)).tooling.percentage
    + (generate_cost_breakdown sampleMaterialCost sampleMachiningCost sampleToolingCost
        (calculate_additional_costs sampleMaterialCost sampleMachiningCost sampleToolingCost)).quality_control.percentage
    + (generate_cost_breakdown sampleMaterialCost sampleMachiningCost sampleToolingCost
        (calculate_additional_costs sampleMaterialCost sampleMachiningCost sampleToolingCost)).overhead.percentage
    + (generate_cost_breakdown sampleMaterialCost sampleMachiningCost sampleToolingCost
        (calculate_additional_costs sampleMaterialCost sampleMachiningCost sampleToolingCost)).profit.percentage
    = 100 :=
  c10_cost_breakdown_percentages_sum sampleMaterialCost sampleMachiningCost sampleToolingCost
    (add_pos
      (add_pos (add_pos (by decide : (0 : ℚ) < 100) (by decide : (0 : ℚ) < 200))
        (by decide : (0 : ℚ) < 50))
      (add_pos
        (add_pos
          (mul_pos
            (add_pos (add_pos (by decide : (0 : ℚ) < 100) (by decide : (0 : ℚ) < 200))
              (by decide : (0 : ℚ) < 50)) q_005_pos)
          (mul_pos
            (add_pos (add_pos (by decide : (0 : ℚ) < 100) (by decide : (0 : ℚ) < 200))
              (by decide : (0 : ℚ) < 50)) q_015_pos))
        (mul_pos
          (add_pos (add_pos (by decide : (0 : ℚ) < 100) (by decide : (0 : ℚ) < 200))
            (by decide : (0 : ℚ) < 50)) q_020_pos)))

end DxfAnalyzer

namespace DxfAnalyzer

theorem cnt_bumpKey {α : Type} [DecidableEq α] (l : List (α × ℕ)) (t m : α) :
    cnt (bumpKey l t) m = cnt l m + if t = m then 1 else 0 := by
  induction l with
  | nil => by_cases h : t = m <;> simp [bumpKey, cnt, h]
  | cons p rest ih =>
    obtain ⟨k, v⟩ := p
    by_cases h1 : k = t <;> by_cases h2 : k = m <;> by_cases h3 : t = m <;>
      simp_all [bumpKey, cnt]

theorem cnt_foldl_bumpKey (acc : List (ℚ × ℕ)) (l : List ℚ) (m : ℚ) :
    cnt (l.foldl bumpKey acc) m = cnt acc m + l.count m := by
  induction l generalizing acc with
  | nil => simp
  | cons x xs ih =>
    simp only [List.foldl_cons, ih, cnt_bumpKey, List.count_cons, beq_iff_eq]
    by_cases h : x = m <;> simp [h] <;> omega

theorem mem_map_fst_bumpKey {α : Type} [DecidableEq α] (l : List (α × ℕ)) (t m : α) :
    m ∈ (bumpKey l t).map Prod.fst ↔ m ∈ l.map Prod.fst ∨ m = t := by
  induction l with
  | nil => simp [bumpKey]
  | cons p rest ih =>
    obtain ⟨k, v⟩ := p
    by_cases h : k = t <;> simp_all [bumpKey] <;> tauto

theorem nodup_map_fst_bumpKey {α : Type} [DecidableEq α] (l : List (α × ℕ)) (t : α)
    (h : (l.map Prod.fst).Nodup) : ((bumpKey l t).map Prod.fst).Nodup := by
  induction l with
  | nil => simp [bumpKey]
  | cons p rest ih =>
    obtain ⟨k, v⟩ := p
    by_cases ht : k = t
    · simpa [bumpKey, ht] using h
    · simp only [List.map_cons, List.nodup_cons] at h
      simp only [bumpKey, if_neg ht, List.map_cons, List.nodup_cons]
      refine ⟨fun hmem => ?_, ih h.2⟩
      rcases (mem_map_fst_bumpKey rest t k).mp hmem with hk | hk
      · exact h.1 hk
      · exact ht hk

theorem mem_map_fst_foldl_bumpKey (l : List ℚ) (acc : List (ℚ × ℕ)) (m : ℚ) :
    m ∈ (l.foldl bumpKey acc).map Prod.fst ↔ m ∈ acc.map Prod.fst ∨ m ∈ l := by
  induction l generalizing acc with
  | nil => simp
  | cons x xs ih =>
    simp only [List.foldl_cons, ih, mem_map_fst_bumpKey, List.mem_cons]
    tauto

theorem nodup_map_fst_foldl_bumpKey (l : List ℚ) (acc : List (ℚ × ℕ))
    (h : (acc.map Prod.fst).Nodup) : ((l.foldl bumpKey acc).map Prod.fst).Nodup := by
  induction l generalizing acc with
  | nil => exact h
  | cons x xs ih => exact ih _ (nodup_map_fst_bumpKey acc x h)

theorem cnt_eq_of_mem_nodup {α : Type} [DecidableEq α] {l : List (α × ℕ)} {p : α × ℕ}
    (hnd : (l.map Prod.fst).Nodup) (hp : p ∈ l) : cnt l p.1 = p.2 := by
  induction l with
  | nil => simp at hp
  | cons q rest ih =>
    obtain ⟨k, v⟩ := q
    simp only [List.map_cons, List.nodup_cons] at hnd
    rcases List.mem_cons.mp hp with rfl | hp2
    · simp [cnt]
    · have hk : k ≠ p.1 := by
        intro he
        exact hnd.1 (he ▸ (List.mem_map.mpr ⟨p, hp2, rfl⟩))
      simp [cnt, hk, ih hnd.2 hp2]

theorem fst_mem_of_mem_counter {l : List ℚ} {p : ℚ × ℕ} (hp : p ∈ counter l) :
    p.1 ∈ l := by
  have hmem : p.1 ∈ (counter l).map Prod.fst := List.mem_map_of_mem Prod.fst hp
  rcases (mem_map_fst_foldl_bumpKey l [] p.1).mp hmem with h | h
  · simp at h
  · exact h

theorem cnt_counter (l : List ℚ) (m : ℚ) : cnt (counter l) m = l.count m := by
  simpa [cnt] using cnt_foldl_bumpKey [] l m

theorem snd_eq_count_of_mem_counter {l : List ℚ} {p : ℚ × ℕ} (hp : p ∈ counter l) :
    p.2 = l.count p.1 := by
  have hnd : ((counter l).map Prod.fst).Nodup :=
    nodup_map_fst_foldl_bumpKey l [] (by simp)
  rw [← cnt_counter l p.1, cnt_eq_of_mem_nodup hnd hp]

theorem exists_counter_pair {l : List ℚ} {m : ℚ} (hm : m ∈ l) :
    (m, l.count m) ∈ counter l := by
  have hmem : m ∈ (counter l).map Prod.fst :=
    (mem_map_fst_foldl_bumpKey l [] m).mpr (Or.inr hm)
  obtain ⟨p, hp, hfst⟩ := List.mem_map.mp hmem
  have := snd_eq_count_of_mem_counter hp
  obtain ⟨a, b⟩ := p
  simp only at hfst this
  subst hfst
  rw [this] at hp
  exact hp

theorem pos_of_mem_posMeasurements {dims : List DimensionInfo} {m : ℚ}
    (h : m ∈ posMeasurements dims) : 0 < m := by
  simp only [posMeasurements, List.mem_filterMap] at h
  obtain ⟨d, _, hd⟩ := h
  cases hm : d.measurement with
  | none => simp [hm] at hd
  | some v =>
    rw [hm] at hd
    simp only [Option.some_bind] at hd
    by_cases hv : 0 < v
    · rw [if_pos hv] at hd
      cases hd
      exact hv
    · rw [if_neg hv] at hd
      cases hd

theorem count_posMeasurements (dims : List DimensionInfo) (m : ℚ) (hm : 0 < m) :
    (posMeasurements dims).count m = dims.countP fun dim => dim.measurement = some m := by
  induction dims with
  | nil => simp [posMeasurements]
  | cons d rest ih =>
    rw [List.countP_cons]
    simp only [posMeasurements, List.filterMap_cons] at ih ⊢
    cases hd : d.measurement with
    | none => simp [ih]
    | some v =>
      simp only [Option.some_bind]
      by_cases hv : 0 < v
      · by_cases hvm : v = m
        · subst hvm
          simp [if_pos hv, List.count_cons, ih]
        · simp [if_pos hv, List.count_cons, ih, hvm, Ne.symm hvm]
      · have hne : v ≠ m := fun he => hv (he ▸ hm)
        simp [if_neg hv, ih, hne]

end DxfAnalyzer

namespace DxfAnalyzer

theorem repeated_found_iff (dims : List DimensionInfo) :
    (∃ p ∈ counter (posMeasurements dims), 1 < p.2)
      ↔ ∃ m : ℚ, 0 < m ∧ 2 ≤ dims.countP fun dim => dim.measurement = some m := by
  constructor
  · rintro ⟨p, hp, h2⟩
    have hmem : p.1 ∈ posMeasurements dims := fst_mem_of_mem_counter hp
    have hpos : 0 < p.1 := pos_of_mem_posMeasurements hmem
    have hcount := snd_eq_count_of_mem_counter hp
    refine ⟨p.1, hpos, ?_⟩
    rw [← count_posMeasurements dims p.1 hpos, ← hcount]
    omega
  · rintro ⟨m, hpos, hcnt⟩
    have hcount : 2 ≤ (posMeasurements dims).count m := by
      rw [count_posMeasurements dims m hpos]; exact hcnt
    have hmem : m ∈ posMeasurements dims := List.count_pos_iff.mp (by omega)
    exact ⟨(m, (posMeasurements dims).count m), exists_counter_pair hmem, by omega⟩

/-- C6: `detect_patterns` reports `grid_pattern` and `symmetry` as exactly
not-found for every input, and `repeated_dimensions` reports found if and
only if some positive numeric measurement value occurs in more than one
dimension entry, in which case the repeated values and the five most
common values are also returned. -/
theorem c6_detect_patterns_found_characterisation (d : AnalyzerData) :
    (detect_patterns d).grid_pattern = ⟨false⟩
    ∧ (detect_patterns d).symmetry = ⟨false⟩
    ∧ ((detect_patterns d).repeated_dimensions.found = true ↔
        ∃ m : ℚ, 0 < m ∧ 2 ≤ d.dimensions.countP fun dim => dim.measurement = some m)
    ∧ (detect_patterns d).repeated_dimensions.repeated_values
        = ((counter (posMeasurements d.dimensions)).filter fun p => 1 < p.2)
    ∧ (detect_patterns d).repeated_dimensions.most_common
        = mostCommon (counter (posMeasurements d.dimensions)) 5 := by
  refine ⟨rfl, rfl, ?_⟩
  simp only [detect_patterns, find_repeated_dimensions]
  split_ifs with h1 h2
  · have hd : d.dimensions = [] := List.isEmpty_iff.mp h1
    refine ⟨?_, ?_, ?_⟩
    · simp [hd]
    · simp [hd, posMeasurements, counter]
    · simp [hd, posMeasurements, counter, mostCommon]
  · have hme : posMeasurements d.dimensions = [] := List.isEmpty_iff.mp h2
    refine ⟨?_, ?_, ?_⟩
    · rw [← repeated_found_iff]
      simp [hme, counter]
    · simp [hme, counter]
    · simp [hme, counter, mostCommon]
  · refine ⟨?_, rfl, rfl⟩
    rw [← repeated_found_iff]
    rw [Bool.not_eq_eq_eq_not, Bool.not_true, List.isEmpty_eq_false_iff_exists_mem]
    constructor
    · rintro ⟨p, hp⟩
      rw [List.mem_filter] at hp
      exact ⟨p, hp.1, by simpa using hp.2⟩
    · rintro ⟨p, hp, h2⟩
      exact ⟨p, List.mem_filter.mpr ⟨hp, by simpa using h2⟩⟩

theorem dupScan_eq_dupSpec (rest : List CircleInfo) :
    ∀ (processed : List CircleInfo) (seen : List (ℚ × ℚ × ℚ)),
    (∀ k, k ∈ seen ↔ k ∈ processed.filterMap circleKey) →
    dupScan rest seen = dupSpec processed rest := by
  induction rest with
  | nil => intro processed seen h; rfl
  | cons c r ih =>
    intro processed seen h
    cases hk : circleKey c with
    | none =>
      simp only [dupScan, dupSpec, hk]
      exact ih (processed ++ [c]) seen fun k => by
        rw [h k]; simp [List.filterMap_append, hk]
    | some key =>
      simp only [dupScan, dupSpec, hk]
      by_cases hmem : key ∈ seen
      · rw [if_pos hmem, if_pos ((h key).mp hmem)]
        refine congrArg _ (ih (processed ++ [c]) seen fun k => ?_)
        rw [h k]
        simp only [List.filterMap_append, List.mem_append]
        constructor
        · exact Or.inl
        · rintro (hin | hin)
          · exact hin
          · simp [hk] at hin
            subst hin
            exact (h k).mp hmem
      · rw [if_neg hmem, if_neg fun hc => hmem ((h key).mpr hc)]
        exact ih (processed ++ [c]) (key :: seen) fun k => by
          rw [List.mem_cons, h k]
          simp only [List.filterMap_append, List.mem_append, List.filterMap_cons, hk,
            List.filterMap_nil, List.mem_singleton]
          tauto

/-- C7: the duplicate detector emits a duplicate-circle anomaly for a
circle exactly when some earlier circle in the list has the same center
and radius after rounding to 3 decimal places (circles with missing or
malformed data are skipped), and with fewer than two circles no anomaly
is ever reported. -/
theorem c7_duplicate_circles_spec (d : AnalyzerData) :
    detect_duplicate_entities d
      = (if 1 < d.circles.length then dupSpec [] d.circles else [])
    ∧ (d.circles.length < 2 → detect_duplicate_entities d = []) := by
  have hmain : detect_duplicate_entities d
      = if 1 < d.circles.length then dupSpec [] d.circles else [] := by
    unfold detect_duplicate_entities
    split_ifs with h
    · exact dupScan_eq_dupSpec d.circles [] [] fun k => by simp
    · rfl
  refine ⟨hmain, fun hlt => ?_⟩
  rw [hmain, if_neg (by omega)]

/-- Witness for C7: a list with fewer than two circles yields no anomaly. -/
theorem c7_duplicate_circles_witness : detect_duplicate_entities sampleData = [] :=
  (c7_duplicate_circles_spec sampleData).2 (by decide)

end DxfAnalyzer

namespace DxfAnalyzer

theorem processEntity_entity_counts (st : AnalyzerState) (e : DxfEntity ℚ) :
    (processEntity st e).entity_counts = bumpKey st.entity_counts e.dxftype := by
  simp only [processEntity]
  split_ifs <;> rfl

theorem processEntity_layers (st : AnalyzerState) (e : DxfEntity ℚ) :
    (processEntity st e).layers = st.layers := by
  simp only [processEntity]
  split_ifs <;> rfl

theorem processEntity_dimensions_length (st : AnalyzerState) (e : DxfEntity ℚ) :
    (processEntity st e).dimensions.length =
      st.dimensions.length + (if e.dxftype = "DIMENSION" then 1 else 0) := by
  simp only [processEntity]
  split_ifs <;> simp_all

theorem processEntity_circles_length (st : AnalyzerState) (e : DxfEntity ℚ) :
    (processEntity st e).circles.length =
      st.circles.length + (if e.dxftype = "CIRCLE" then 1 else 0) := by
  simp only [processEntity]
  split_ifs <;> simp_all

theorem processEntity_arcs_length (st : AnalyzerState) (e : DxfEntity ℚ) :
    (processEntity st e).arcs.length =
      st.arcs.length + (if e.dxftype = "ARC" then 1 else 0) := by
  simp only [processEntity]
  split_ifs <;> simp_all

theorem processEntity_texts_length (st : AnalyzerState) (e : DxfEntity ℚ) :
    (processEntity st e).texts.length =
      st.texts.length +
        (if e.dxftype = "TEXT" ∨ e.dxftype = "MTEXT" then 1 else 0) := by
  simp only [processEntity]
  split_ifs <;> first | (simp_all; done) | (exfalso; casesm* _ ∨ _ <;> simp_all; done)

theorem processEntity_lines_length (st : AnalyzerState) (e : DxfEntity ℚ) :
    (processEntity st e).lines.length =
      st.lines.length + (if e.dxftype = "LINE" then 1 else 0) := by
  simp only [processEntity]
  split_ifs <;> simp_all

theorem processEntity_polylines_length (st : AnalyzerState) (e : DxfEntity ℚ) :
    (processEntity st e).polylines.length =
      st.polylines.length +
        (if e.dxftype = "LWPOLYLINE" ∨ e.dxftype = "POLYLINE" then 1 else 0) := by
  simp only [processEntity]
  split_ifs <;> first | (simp_all; done) | (exfalso; casesm* _ ∨ _ <;> simp_all; done)

theorem processEntity_blocks_length (st : AnalyzerState) (e : DxfEntity ℚ) :
    (processEntity st e).blocks.length =
      st.blocks.length + (if e.dxftype = "INSERT" then 1 else 0) := by
  simp only [processEntity]
  split_ifs <;> simp_all

theorem processEntity_hatches_length (st : AnalyzerState) (e : DxfEntity ℚ) :
    (processEntity st e).hatches.length =
      st.hatches.length + (if e.dxftype = "HATCH" then 1 else 0) := by
  simp only [processEntity]
  split_ifs <;> simp_all

theorem foldl_processEntity_layers (es : List (DxfEntity ℚ)) (st : AnalyzerState) :
    (es.foldl processEntity st).layers = st.layers := by
  induction es generalizing st with
  | nil => rfl
  | cons e rest ih => rw [List.foldl_cons, ih, processEntity_layers]

theorem foldl_processEntity_total (es : List (DxfEntity ℚ)) (st : AnalyzerState) :
    sumValues (es.foldl processEntity st).entity_counts =
      sumValues st.entity_counts + es.length := by
  induction es generalizing st with
  | nil => simp
  | cons e rest ih =>
    rw [List.foldl_cons, ih, processEntity_entity_counts, sumValues_bumpKey,
      List.length_cons]
    omega

theorem foldl_processEntity_dimensions (es : List (DxfEntity ℚ)) (st : AnalyzerState) :
    (es.foldl processEntity st).dimensions.length =
      st.dimensions.length + es.countP (fun e => e.dxftype = "DIMENSION") := by
  induction es generalizing st with
  | nil => simp
  | cons e rest ih =>
    rw [List.foldl_cons, ih, processEntity_dimensions_length, List.countP_cons]
    by_cases h : e.dxftype = "DIMENSION" <;> simp [h] <;> omega

theorem foldl_processEntity_circles (es : List (DxfEntity ℚ)) (st : AnalyzerState) :
    (es.foldl processEntity st).circles.length =
      st.circles.length + es.countP (fun e => e.dxftype = "CIRCLE") := by
  induction es generalizing st with
  | nil => simp
  | cons e rest ih =>
    rw [List.foldl_cons, ih, processEntity_circles_length, List.countP_cons]
    by_cases h : e.dxftype = "CIRCLE" <;> simp [h] <;> omega

theorem foldl_processEntity_arcs (es : List (DxfEntity ℚ)) (st : AnalyzerState) :
    (es.foldl processEntity st).arcs.length =
      st.arcs.length + es.countP (fun e => e.dxftype = "ARC") := by
  induction es generalizing st with
  | nil => simp
  | cons e rest ih =>
    rw [List.foldl_cons, ih, processEntity_arcs_length, List.countP_cons]
    by_cases h : e.dxftype = "ARC" <;> simp [h] <;> omega

theorem foldl_processEntity_texts (es : List (DxfEntity ℚ)) (st : AnalyzerState) :
    (es.foldl processEntity st).texts.length =
      st.texts.length +
        es.countP (fun e => e.dxftype = "TEXT" ∨ e.dxftype = "MTEXT") := by
  induction es generalizing st with
  | nil => simp
  | cons e rest ih =>
    rw [List.foldl_cons, ih, processEntity_texts_length, List.countP_cons]
    by_cases h : e.dxftype = "TEXT" ∨ e.dxftype = "MTEXT" <;> simp [h] <;> omega

theorem foldl_processEntity_lines (es : List (DxfEntity ℚ)) (st : AnalyzerState) :
    (es.foldl processEntity st).lines.length =
      st.lines.length + es.countP (fun e => e.dxftype = "LINE") := by
  induction es generalizing st with
  | nil => simp
  | cons e rest ih =>
    rw [List.foldl_cons, ih, processEntity_lines_length, List.countP_cons]
    by_cases h : e.dxftype = "LINE" <;> simp [h] <;> omega

theorem foldl_processEntity_polylines (es : List (DxfEntity ℚ)) (st : AnalyzerState) :
    (es.foldl processEntity st).polylines.length =
      st.polylines.length +
        es.countP (fun e => e.dxftype = "LWPOLYLINE" ∨ e.dxftype = "POLYLINE") := by
  induction es generalizing st with
  | nil => simp
  | cons e rest ih =>
    rw [List.foldl_cons, ih, processEntity_polylines_length, List.countP_cons]
    by_cases h : e.dxftype = "LWPOLYLINE" ∨ e.dxftype = "POLYLINE" <;>
      simp [h] <;> omega

theorem foldl_processEntity_blocks (es : List (DxfEntity ℚ)) (st : AnalyzerState) :
    (es.foldl processEntity st).blocks.length =
      st.blocks.length + es.countP (fun e => e.dxftype = "INSERT") := by
  induction es generalizing st with
  | nil => simp
  | cons e rest ih =>
    rw [List.foldl_cons, ih, processEntity_blocks_length, List.countP_cons]
    by_cases h : e.dxftype = "INSERT" <;> simp [h] <;> omega

theorem foldl_processEntity_hatches (es : List (DxfEntity ℚ)) (st : AnalyzerState) :
    (es.foldl processEntity st).hatches.length =
      st.hatches.length + es.countP (fun e => e.dxftype = "HATCH") := by
  induction es generalizing st with
  | nil => simp
  | cons e rest ih =>
    rw [List.foldl_cons, ih, processEntity_hatches_length, List.countP_cons]
    by_cases h : e.dxftype = "HATCH" <;> simp [h] <;> omega

/-- C3: after every successful run of `analyze_dxf_file` the summary is
consistent with the collected data: `total_entities` is the sum of the
per-type counts of `entity_breakdown` and equals the number of iterated
entities, and every count field equals the length of the corresponding
collected list, each of which is obtained by plain counting of the
entities of its dxftype. -/
theorem c3_summary_counts_consistent (fi : FileInfo) (layerRows : List LayerInfo)
    (entities : List (DxfEntity ℚ)) :
    (analyze_dxf_file fi layerRows entities).summary_info.total_entities
      = sumValues (analyze_dxf_file fi layerRows entities).entity_breakdown
    ∧ (analyze_dxf_file fi layerRows entities).summary_info.total_entities
      = entities.length
    ∧ (analyze_dxf_file fi layerRows entities).summary_info.layer_count
      = (analyze_dxf_file fi layerRows entities).layers.length
    ∧ (analyze_dxf_file fi layerRows entities).layers = layerRows
    ∧ (analyze_dxf_file fi layerRows entities).summary_info.dimension_count
      = (analyze_dxf_file fi layerRows entities).dimensions.length
    ∧ (analyze_dxf_file fi layerRows entities).summary_info.circle_count
      = (analyze_dxf_file fi layerRows entities).circles.length
    ∧ (analyze_dxf_file fi layerRows entities).summary_info.arc_count
      = (analyze_dxf_file fi layerRows entities).arcs.length
    ∧ (analyze_dxf_file fi layerRows entities).summary_info.text_count
      = (analyze_dxf_file fi layerRows entities).texts.length
    ∧ (analyze_dxf_file fi layerRows entities).summary_info.line_count
      = (analyze_dxf_file fi layerRows entities).lines.length
    ∧ (analyze_dxf_file fi layerRows entities).summary_info.polyline_count
      = (analyze_dxf_file fi layerRows entities).polylines.length
    ∧ (analyze_dxf_file fi layerRows entities).summary_info.block_count
      = (analyze_dxf_file fi layerRows entities).blocks.length
    ∧ (analyze_dxf_file fi layerRows entities).summary_info.hatch_count
      = (analyze_dxf_file fi layerRows entities).hatches.length
    ∧ (analyze_dxf_file fi layerRows entities).dimensions.length
      = entities.countP (fun e => e.dxftype = "DIMENSION")
    ∧ (analyze_dxf_file fi layerRows entities).circles.length
      = entities.countP (fun e => e.dxftype = "CIRCLE")
    ∧ (analyze_dxf_file fi layerRows entities).arcs.length
      = entities.countP (fun e => e.dxftype = "ARC")
    ∧ (analyze_dxf_file fi layerRows entities).texts.length
      = entities.countP (fun e => e.dxftype = "TEXT" ∨ e.dxftype = "MTEXT")
    ∧ (analyze_dxf_file fi layerRows entities).lines.length
      = entities.countP (fun e => e.dxftype = "LINE")
    ∧ (analyze_dxf_file fi layerRows entities).polylines.length
      = entities.countP (fun e => e.dxftype = "LWPOLYLINE" ∨ e.dxftype = "POLYLINE")
    ∧ (analyze_dxf_file fi layerRows entities).blocks.length
      = entities.countP (fun e => e.dxftype = "INSERT")
    ∧ (analyze_dxf_file fi layerRows entities).hatches.length
      = entities.countP (fun e => e.dxftype = "HATCH") := by
  refine ⟨rfl, ?_, rfl, ?_, rfl, rfl, rfl, rfl, rfl, rfl, rfl, rfl,
    ?_, ?_, ?_, ?_, ?_, ?_, ?_, ?_⟩
  · simp only [analyze_dxf_file]
    rw [foldl_processEntity_total]
    simp
  · simp only [analyze_dxf_file]
    rw [foldl_processEntity_layers]
  · simp only [analyze_dxf_file]
    rw [foldl_processEntity_dimensions]
    simp
  · simp only [analyze_dxf_file]
    rw [foldl_processEntity_circles]
    simp
  · simp only [analyze_dxf_file]
    rw [foldl_processEntity_arcs]
    simp
  · simp only [analyze_dxf_file]
    rw [foldl_processEntity_texts]
    simp
  · simp only [analyze_dxf_file]
    rw [foldl_processEntity_lines]
    simp
  · simp only [analyze_dxf_file]
    rw [foldl_processEntity_polylines]
    simp
  · simp only [analyze_dxf_file]
    rw [foldl_processEntity_blocks]
    simp
  · simp only [analyze_dxf_file]
    rw [foldl_processEntity_hatches]
    simp

end DxfAnalyzer

namespace DxfAnalyzer

theorem extractLoop_no_trigger (kws : List String) (lines : List (List Char))
    (acc : List String)
    (h : ∀ line ∈ lines, containsKeyword kws line = false) :
    extractLoop kws lines false acc = acc := by
  induction lines with
  | nil => rfl
  | cons l rest ih =>
    have hl : containsKeyword kws l = false := h l (List.mem_cons_self l rest)
    simp only [extractLoop, hl, Bool.false_eq_true, if_false, Bool.false_and]
    exact ih fun line hm => h line (List.mem_cons_of_mem l hm)

theorem extractLoop_mem (kws : List String) (lines : List (List Char)) :
    ∀ (inSection : Bool) (acc : List String) (x : String),
    x ∈ extractLoop kws lines inSection acc →
    x ∈ acc ∨ ∃ b ∈ lines, isBullet (pyStrip b) = true ∧ x = cleanItem b := by
  induction lines with
  | nil => intro _ acc x hx; exact Or.inl hx
  | cons l rest ih =>
    intro inSection acc x hx
    simp only [extractLoop] at hx
    by_cases h1 : containsKeyword kws l = true
    · rw [if_pos h1] at hx
      rcases ih true acc x hx with h | ⟨b, hb, hbb⟩
      · exact Or.inl h
      · exact Or.inr ⟨b, List.mem_cons_of_mem _ hb, hbb⟩
    · rw [if_neg h1] at hx
      by_cases h2 : (inSection && !(pyStrip l).isEmpty) = true
      · rw [if_pos h2] at hx
        by_cases h3 : isBullet (pyStrip l) = true
        · rw [if_pos h3] at hx
          rcases ih inSection (acc ++ [cleanItem l]) x hx with h | ⟨b, hb, hbb⟩
          · rcases List.mem_append.mp h with h | h
            · exact Or.inl h
            · exact Or.inr ⟨l, List.mem_cons_self _ _, h3, List.mem_singleton.mp h⟩
          · exact Or.inr ⟨b, List.mem_cons_of_mem _ hb, hbb⟩
        · rw [if_neg h3] at hx
          by_cases h4 : 0 < acc.length
          · rw [if_pos h4] at hx
            exact Or.inl hx
          · rw [if_neg h4] at hx
            rcases ih inSection acc x hx with h | ⟨b, hb, hbb⟩
            · exact Or.inl h
            · exact Or.inr ⟨b, List.mem_cons_of_mem _ hb, hbb⟩
      · rw [if_neg h2] at hx
        rcases ih inSection acc x hx with h | ⟨b, hb, hbb⟩
        · exact Or.inl h
        · exact Or.inr ⟨b, List.mem_cons_of_mem _ hb, hbb⟩

theorem extractLoop_after_trigger (kws : List String) (lines : List (List Char)) :
    ∀ (acc : List String) (x : String),
    x ∈ extractLoop kws lines false acc →
    x ∈ acc ∨ ∃ pre t post, lines = pre ++ t :: post
      ∧ containsKeyword kws t = true
      ∧ ∃ b ∈ post, isBullet (pyStrip b) = true ∧ x = cleanItem b := by
  induction lines with
  | nil => intro acc x hx; exact Or.inl hx
  | cons l rest ih =>
    intro acc x hx
    simp only [extractLoop] at hx
    by_cases h1 : containsKeyword kws l = true
    · rw [if_pos h1] at hx
      rcases extractLoop_mem kws rest true acc x hx with h | ⟨b, hb, hbb⟩
      · exact Or.inl h
      · exact Or.inr ⟨[], l, rest, rfl, h1, b, hb, hbb⟩
    · rw [if_neg h1] at hx
      simp only [Bool.false_and, Bool.false_eq_true, if_false] at hx
      rcases ih acc x hx with h | ⟨pre, t, post, heq, ht, hb⟩
      · exact Or.inl h
      · exact Or.inr ⟨l :: pre, t, post, by rw [heq]; rfl, ht, hb⟩

/-- C8: both extractors return at most 5 strings, every returned string
comes from a bullet line occurring after a keyword line, and when no line
of the response contains a trigger keyword the result is empty. -/
theorem c8_keyword_extraction (s : String) :
    (extract_recommendations s).length ≤ 5
    ∧ (extract_issues s).length ≤ 5
    ∧ (∀ x ∈ extract_recommendations s,
        ∃ pre t post, pySplitLines s = pre ++ t :: post
          ∧ containsKeyword recommendationKeywords t = true
          ∧ ∃ b ∈ post, isBullet (pyStrip b) = true ∧ x = cleanItem b)
    ∧ (∀ x ∈ extract_issues s,
        ∃ pre t post, pySplitLines s = pre ++ t :: post
          ∧ containsKeyword issueKeywords t = true
          ∧ ∃ b ∈ post, isBullet (pyStrip b) = true ∧ x = cleanItem b)
    ∧ ((∀ line ∈ pySplitLines s, containsKeyword recommendationKeywords line = false) →
        extract_recommendations s = [])
    ∧ ((∀ line ∈ pySplitLines s, containsKeyword issueKeywords line = false) →
        extract_issues s = []) := by
  refine ⟨?_, ?_, ?_, ?_, ?_, ?_⟩
  · simpa [extract_recommendations] using
      List.length_take_le 5 (extractLoop recommendationKeywords (pySplitLines s) false [])
  · simpa [extract_issues] using
      List.length_take_le 5 (extractLoop issueKeywords (pySplitLines s) false [])
  · intro x hx
    have hx2 : x ∈ extractLoop recommendationKeywords (pySplitLines s) false [] :=
      List.take_subset 5 _ hx
    rcases extractLoop_after_trigger _ _ _ _ hx2 with h | h
    · simp at h
    · exact h
  · intro x hx
    have hx2 : x ∈ extractLoop issueKeywords (pySplitLines s) false [] :=
      List.take_subset 5 _ hx
    rcases extractLoop_after_trigger _ _ _ _ hx2 with h | h
    · simp at h
    · exact h
  · intro h
    simp [extract_recommendations, extractLoop_no_trigger _ _ _ h]
  · intro h
    simp [extract_issues, extractLoop_no_trigger _ _ _ h]

/-- Witness for C8: a response with no keyword line extracts nothing, and
an extracted string of a keyworded response comes from a bullet line after
the keyword line. -/
theorem c8_keyword_extraction_witness :
    extract_recommendations sampleNoKeywordResponse = []
    ∧ extract_issues sampleNoKeywordResponse = []
    ∧ (∃ pre t post, pySplitLines sampleRecommendResponse = pre ++ t :: post
        ∧ containsKeyword recommendationKeywords t = true
        ∧ ∃ b ∈ post, isBullet (pyStrip b) = true ∧ "do this" = cleanItem b) :=
  ⟨(c8_keyword_extraction sampleNoKeywordResponse).2.2.2.2.1 (by decide),
   (c8_keyword_extraction sampleNoKeywordResponse).2.2.2.2.2 (by decide),
   (c8_keyword_extraction sampleRecommendResponse).2.2.1 "do this" (by decide)⟩

end DxfAnalyzer

namespace DxfAnalyzer

/-- C9: neither estimator entry point propagates an exception: for every
input, including a failing file read, the result is either the full result
record or a failure record carrying the error message, the message of a
failing read is passed through unchanged, and the estimator state is
returned unmodified in every case. -/
theorem c9_entry_points_error_contract
    (cst : CostState ℝ) (readCost : Except String (List (DxfEntity ℝ)))
    (spec : MaterialSpec ℝ) (qty : ℤ)
    (nst : CncState ℝ) (readCnc : Except String (List (DxfEntity ℝ)))
    (material : String) :
    (estimate_total_cost cst readCost spec qty).2 = cst
    ∧ ((∃ r, (estimate_total_cost cst readCost spec qty).1 = CostOutcome.success r)
        ∨ (∃ m, (estimate_total_cost cst readCost spec qty).1 = CostOutcome.failure m))
    ∧ (∀ m, readCost = Except.error m →
        (estimate_total_cost cst readCost spec qty).1 = CostOutcome.failure m)
    ∧ (analyze_machinability nst readCnc material).2 = nst
    ∧ ((∃ r, (analyze_machinability nst readCnc material).1 = CncOutcome.success r)
        ∨ (∃ m, (analyze_machinability nst readCnc material).1 = CncOutcome.failure m))
    ∧ (∀ m, readCnc = Except.error m →
        (analyze_machinability nst readCnc material).1 = CncOutcome.failure m) := by
  refine ⟨rfl, ?_, ?_, rfl, ?_, ?_⟩
  · cases hb : estimateTotalCostBody cst readCost spec qty with
    | ok r => exact Or.inl ⟨r, by simp [estimate_total_cost, hb]⟩
    | error e => exact Or.inr ⟨e, by simp [estimate_total_cost, hb]⟩
  · intro m hm
    subst hm
    simp [estimate_total_cost, estimateTotalCostBody, Bind.bind, Except.bind]
  · cases hb : analyzeMachinabilityBody nst readCnc material with
    | ok r => exact Or.inl ⟨r, by simp [analyze_machinability, hb]⟩
    | error e => exact Or.inr ⟨e, by simp [analyze_machinability, hb]⟩
  · intro m hm
    subst hm
    simp [analyze_machinability, analyzeMachinabilityBody, Bind.bind, Except.bind]

/-- Witness for C9: a failing file read yields the error dictionary with
the read error message, for both entry points, leaving the state intact. -/
theorem c9_entry_points_witness :
    (estimate_total_cost (initCostState ℝ) (Except.error "file not found") sampleSpec 1).1
      = CostOutcome.failure "file not found"
    ∧ (analyze_machinability (initCncState ℝ) (Except.error "file not found") "aluminum").1
      = CncOutcome.failure "file not found"
    ∧ (estimate_total_cost (initCostState ℝ) (Except.error "file not found") sampleSpec 1).2
      = initCostState ℝ :=
  ⟨(c9_entry_points_error_contract (initCostState ℝ) (Except.error "file not found")
      sampleSpec 1 (initCncState ℝ) (Except.error "file not found") "aluminum").2.2.1
      "file not found" rfl,
   (c9_entry_points_error_contract (initCostState ℝ) (Except.error "file not found")
      sampleSpec 1 (initCncState ℝ) (Except.error "file not found") "aluminum").2.2.2.2.2
      "file not found" rfl,
   (c9_entry_points_error_contract (initCostState ℝ) (Except.error "file not found")
      sampleSpec 1 (initCncState ℝ) (Except.error "file not found") "aluminum").1⟩

end DxfAnalyzer
